import Mathlib

/-!
Verification of the URI validation flow (`src/AppInstallerCLICore/Workflows/UriValidationFlow.cpp`)

A shallow embedding of the URI validation workflow: the zone classifier `GetUriZone`,
the policy gate `IsZoneBlockedByGroupPolicy`, the reputation gate `IsSmartScreenRequired` /
`IsUriBlockedBySmartScreen`, the three use-case evaluators and `ExecuteUriValidation`.

Conventions of the embedding:

* The collaborators the file calls into (OS zone mapping, group policy store, admin settings,
  reputation service) are read from an explicit environment `Env`; one evaluation sees one
  snapshot of them, and they are assumed to return normally.
* Observable effects (log lines, reporter output) and the calls the specification talks about
  are recorded, in program order, in the trace of a `Flow` computation.
* C++ exceptions raised by the file itself (`THROW_HR`, `std::out_of_range` from `std::stoul`)
  are the `Exn` outcome of a `Flow`.
* A function `HRESULT f(..., T& out)` becomes a function to `Except HRESULT T`: `.ok v` is
  "wrote `v` to `out` and returned `S_OK`", `.error hr` is "returned `hr`, `out` untouched".
-/

namespace UriValidationFlow

/-! ## Platform types -/

/-- Windows `HRESULT`, a signed 32-bit status code. -/
abbrev HRESULT := Int

/-- Windows `DWORD`, an unsigned 32-bit integer. -/
abbrev DWORD := Nat

/-- The success code `S_OK` (0). -/
def S_OK : HRESULT := 0

/-- The generic failure `E_FAIL` (0x80004005). -/
def E_FAIL : HRESULT := -2147467259

/-- The failure `E_UNEXPECTED` (0x8000FFFF). -/
def E_UNEXPECTED : HRESULT := -2147418113

/-- The Windows macro `FAILED(hr)`: the severity bit is set, i.e. the code is negative. -/
def FAILED (hr : HRESULT) : Bool := decide (hr < 0)

/-- Modelled from the spec: the macros `APPINSTALLER_CLI_ERROR_BLOCKED_BY_POLICY` and
`APPINSTALLER_CLI_ERROR_BLOCKED_BY_REPUTATION_SERVICE` are defined outside src/. The spec
(section 4.5) fixes only that they are two distinct error codes, each of which terminates the
command; they are therefore kept as parameters: two failing `HRESULT`s that differ. -/
structure ErrorCodes where
  /-- The macro `APPINSTALLER_CLI_ERROR_BLOCKED_BY_POLICY`. -/
  BLOCKED_BY_POLICY : HRESULT
  /-- The macro `APPINSTALLER_CLI_ERROR_BLOCKED_BY_REPUTATION_SERVICE`. -/
  BLOCKED_BY_REPUTATION_SERVICE : HRESULT
  policy_failed : FAILED BLOCKED_BY_POLICY = true
  reputation_failed : FAILED BLOCKED_BY_REPUTATION_SERVICE = true
  distinct : BLOCKED_BY_POLICY ≠ BLOCKED_BY_REPUTATION_SERVICE

/-! ## Data model -/

/-- Modelled from the spec: the enumeration `Settings::SecurityZoneOptions` is declared outside
src/. The spec (section 3) gives the ordered tiers LocalMachine, Intranet, TrustedSites, Internet,
UntrustedSites, which take the ordinals 0 to 4. A C++ enumeration object can hold any value of
its underlying type (`int`), which is what `static_cast` in `GetUriZone` produces, so a zone is
its underlying integer. -/
structure SecurityZoneOptions where
  raw : Int
  deriving DecidableEq, Repr

namespace SecurityZoneOptions

/-- Ordinal 0. -/
def LocalMachine : SecurityZoneOptions := ⟨0⟩
/-- Ordinal 1. -/
def Intranet : SecurityZoneOptions := ⟨1⟩
/-- Ordinal 2. -/
def TrustedSites : SecurityZoneOptions := ⟨2⟩
/-- Ordinal 3. -/
def Internet : SecurityZoneOptions := ⟨3⟩
/-- Ordinal 4. -/
def UntrustedSites : SecurityZoneOptions := ⟨4⟩

/-- The conversion `static_cast<DWORD>(zone)`: reduction modulo 2^32. -/
def toDWORD (zone : SecurityZoneOptions) : DWORD := (zone.raw % 4294967296).toNat

/-- The conversion `static_cast<Settings::SecurityZoneOptions>(v)` of an unsigned 32-bit value:
the value is converted to the underlying `int`, wrapping modulo 2^32. -/
def ofUnsigned (v : Nat) : SecurityZoneOptions :=
  if v % 4294967296 < 2147483648 then ⟨((v % 4294967296 : Nat) : Int)⟩
  else ⟨((v % 4294967296 : Nat) : Int) - 4294967296⟩

/-- The five tiers the specification recognises. -/
def recognized (zone : SecurityZoneOptions) : Bool :=
  zone = LocalMachine || zone = Intranet || zone = TrustedSites || zone = Internet ||
    zone = UntrustedSites

end SecurityZoneOptions

/-- The state of a toggle policy, `Settings::PolicyState` (declared outside src/; the three
states are those of the spec, section 3). -/
inductive PolicyState where
  | NotConfigured
  | Enabled
  | Disabled
  deriving DecidableEq, Repr

/-- The verdict `UriValidation::UriValidationDecision`. The source switches on `Block` and
`Allow` and has a `default` branch; `Other` stands for every value that is neither. -/
inductive UriValidationDecision where
  | Allow
  | Block
  | Other (raw : Int)
  deriving DecidableEq, Repr

/-- The response of `UriValidation::ValidateUri`: `Decision()` and `Feedback()`. -/
structure UriValidationResult where
  Decision : UriValidationDecision
  Feedback : String
  deriving DecidableEq, Repr

/-- The workflow parameter `UriValidationSource`; `Unrecognized` stands for any value that is
none of the three enumerators (the `default` branch of `EvaluateUri`). -/
inductive UriValidationSource where
  | Configuration
  | Package
  | SourceAdd
  | Unrecognized (raw : Int)
  deriving DecidableEq, Repr

/-- The allow-list `std::map<SecurityZoneOptions, bool>` of the AllowedSecurityZones value
policy, as the finite partial function it denotes: `m zone = none` is `find(zone) == end()`. -/
abbrev ZoneAllowList := SecurityZoneOptions → Option Bool

/-- The flag bit `Repository::SourceTrustLevel::Trusted` (declared outside src/; a single bit
of the trust-level flag set). -/
def SourceTrustLevel_Trusted : Nat := 1

/-- The macro `WI_IsFlagSet(value, flag)` for a single-bit flag. -/
def WI_IsFlagSet (value flag : Nat) : Bool := (value &&& flag) == flag

/-- The parts of `Execution::Context` the workflow reads. The reporter is not a field: what is
written to it is recorded in the trace. -/
structure Context where
  /-- The value of `Args::Type::ConfigurationFile`, when the argument is present. -/
  Args_ConfigurationFile : Option String
  /-- The member `Url` of `Data::Installer`, when the context contains an installer. -/
  Data_Installer_Url : Option String
  /-- The member `GetDetails().Arg` of `Data::Source`, when the context contains a source. -/
  Data_Source_Arg : Option String
  /-- The flag set `GetSource().GetDetails().TrustLevel` of `Data::PackageVersion`, when the
  context contains a package version. -/
  Data_PackageVersion_TrustLevel : Option Nat

/-- One snapshot of the build configuration and of the collaborators. -/
structure Env where
  /-- Whether the test hooks are compiled in (`AICLI_DISABLE_TEST_HOOKS` is not defined). -/
  testHooks : Bool
  /-- The two error-code macros. -/
  codes : ErrorCodes
  /-- The call `IInternetSecurityManager::MapUrlToZone`: its `HRESULT` and the zone identifier
  it stores. -/
  MapUrlToZone : String → HRESULT × DWORD
  /-- The state of `TogglePolicy::Policy::AllowedSecurityZones`. -/
  AllowedSecurityZones_State : PolicyState
  /-- The value `GetValue<ValuePolicy::AllowedSecurityZones>()`, an optional allow-list. -/
  AllowedSecurityZones_Value : Option ZoneAllowList
  /-- The state `GetState(TogglePolicy::Policy::SmartScreenCheck)`. -/
  SmartScreenCheck_State : PolicyState
  /-- The admin setting `IsAdminSettingEnabled(BoolAdminSetting::SmartScreenCheck)`. -/
  SmartScreenCheck_AdminSetting : Bool
  /-- The reputation service `UriValidation::ValidateUri`. -/
  ValidateUri : String → UriValidationResult

/-- Modelled from the spec: `GroupPolicies().IsEnabled` is defined outside src/. The spec
(section 4.2, step 1) reads its negation as "the policy is not Enabled at all", so it holds
exactly in the state `Enabled`. -/
def GroupPolicies_IsEnabled (state : PolicyState) : Bool := state = PolicyState.Enabled

/-! ## Effects -/

/-- The severity of an `AICLI_LOG` line. -/
inductive LogLevel where
  | Verbose
  | Info
  | Warning
  | Error
  deriving DecidableEq, Repr

/-- One operand of the `<<` chain of a log line: text (a literal, a string variable or the
result of `ToString`), or a zone streamed as such. -/
inductive LogPart where
  | text (s : String)
  | zone (z : SecurityZoneOptions)
  deriving DecidableEq, Repr

/-- The localized messages written to the reporter. -/
inductive ResourceString where
  | UriBlockedBySmartScreen
  | UriSecurityZoneBlockedByPolicy
  deriving DecidableEq, Repr

/-- The calls the specification talks about: zone resolution and the OS zone mapping behind
it, the policy gate, the reputation gate and the reputation service. -/
inductive Call where
  | GetUriZone (uri : String)
  | MapUrlToZone (uri : String)
  | IsZoneBlockedByGroupPolicy (zone : SecurityZoneOptions)
  | IsSmartScreenRequired (zone : SecurityZoneOptions) (isSourceTrusted : Bool)
  | ValidateUri (uri : String)
  deriving DecidableEq, Repr

/-- An entry of the trace of an evaluation. -/
inductive Event where
  /-- The statement `AICLI_LOG(Core, level, << parts)`. -/
  | log (level : LogLevel) (parts : List LogPart)
  /-- The statement `context.Reporter.Error() << message << std::endl`. -/
  | reporterError (message : ResourceString)
  /-- The start of a call. -/
  | call (c : Call)
  deriving DecidableEq, Repr

/-- The C++ exceptions the file raises. -/
inductive Exn where
  /-- The exception `std::out_of_range`, thrown by `std::stoul`. -/
  | out_of_range
  /-- The macro `THROW_HR(hr)`. -/
  | hresult (hr : HRESULT)
  deriving DecidableEq, Repr

/-- A computation that has run: what it did, in order, and how it ended (a returned value or
an exception in flight). -/
structure Flow (α : Type) where
  trace : List Event
  value : Except Exn α

namespace Flow

/-- Return without an effect. -/
def ret {α : Type} (a : α) : Flow α := ⟨[], Except.ok a⟩

/-- Sequencing: the continuation runs only when the first part returned; its trace follows. -/
def andThen {α β : Type} (m : Flow α) (f : α → Flow β) : Flow β :=
  match m.value with
  | Except.ok a => ⟨m.trace ++ (f a).trace, (f a).value⟩
  | Except.error e => ⟨m.trace, Except.error e⟩

instance : Monad Flow where
  pure := ret
  bind := andThen

/-- Record one trace entry. -/
def emit (e : Event) : Flow Unit := ⟨[e], Except.ok ()⟩

/-- Raise an exception. -/
def raise {α : Type} (e : Exn) : Flow α := ⟨[], Except.error e⟩

end Flow

/-- The macro `AICLI_LOG(Core, level, << parts)`. -/
def AICLI_LOG (level : LogLevel) (parts : List LogPart) : Flow Unit :=
  Flow.emit (Event.log level parts)

/-- The statement `context.Reporter.Error() << message << std::endl`. -/
def Reporter_Error (message : ResourceString) : Flow Unit :=
  Flow.emit (Event.reporterError message)

/-- Marks the start of a call in the trace. -/
def enter (c : Call) : Flow Unit := Flow.emit (Event.call c)

/-! ## Trace observations -/

/-- The entry is a query of the reputation service. -/
def Event.isValidateUri : Event → Bool
  | Event.call (Call.ValidateUri _) => true
  | _ => false

/-- The entry is a call of the policy gate. -/
def Event.isPolicyGate : Event → Bool
  | Event.call (Call.IsZoneBlockedByGroupPolicy _) => true
  | _ => false

/-- The entry is a call of the reputation-requirement decision. -/
def Event.isSmartScreenRequired : Event → Bool
  | Event.call (Call.IsSmartScreenRequired _ _) => true
  | _ => false

/-- The entry is a zone resolution or the OS zone mapping. -/
def Event.isZoneResolution : Event → Bool
  | Event.call (Call.GetUriZone _) => true
  | Event.call (Call.MapUrlToZone _) => true
  | _ => false

/-- The entry is a message written to the reporter. -/
def Event.isReporter : Event → Bool
  | Event.reporterError _ => true
  | _ => false

/-- How often the reputation service was queried. -/
def validateUriCalls (t : List Event) : Nat := t.countP Event.isValidateUri

/-- How often the policy gate was called. -/
def policyGateCalls (t : List Event) : Nat := t.countP Event.isPolicyGate

/-- How often the reputation-requirement decision was called. -/
def smartScreenRequiredCalls (t : List Event) : Nat := t.countP Event.isSmartScreenRequired

/-! ## The workflow -/

open SecurityZoneOptions in
/-- Convert the security zone to string (source lines 15-32). -/
def ToString (zone : SecurityZoneOptions) : String :=
  if zone = LocalMachine then "LocalMachine"
  else if zone = Intranet then "Intranet"
  else if zone = TrustedSites then "TrustedSites"
  else if zone = Internet then "Internet"
  else if zone = UntrustedSites then "UntrustedSites"
  else "Unknown"

open SecurityZoneOptions in
/-- Check if smart screen is required for a given zone (source lines 35-81). In the last
branch the source asserts that the state is `Enabled`, the one state left. -/
def IsSmartScreenRequired (env : Env) (zone : SecurityZoneOptions) (isSourceTrusted : Bool) :
    Flow Bool := do
  enter (Call.IsSmartScreenRequired zone isSourceTrusted)
  if zone ≠ Internet ∧ zone ≠ UntrustedSites then
    AICLI_LOG LogLevel.Info
      [LogPart.text "Skipping smart screen validation for zone ", LogPart.text (ToString zone)]
    pure false
  else
    let ssAdminSettingEnabled := env.SmartScreenCheck_AdminSetting
    let ssPolicyState := env.SmartScreenCheck_State
    if ssPolicyState = PolicyState.NotConfigured then
      AICLI_LOG LogLevel.Info
        [LogPart.text "Smart screen validation is not configured by group policy"]
      if !ssAdminSettingEnabled then
        AICLI_LOG LogLevel.Info
          [LogPart.text "Skipping smart screen validation as the admin setting is disabled"]
        pure false
      else if isSourceTrusted then
        AICLI_LOG LogLevel.Info
          [LogPart.text "Skipping smart screen validation for trusted source"]
        pure false
      else
        AICLI_LOG LogLevel.Info
          [LogPart.text "Smart screen validation is required for untrusted source"]
        pure true
    else if ssPolicyState = PolicyState.Disabled then
      AICLI_LOG LogLevel.Info [LogPart.text "Smart screen validation is disabled by group policy"]
      pure false
    else
      AICLI_LOG LogLevel.Info [LogPart.text "Smart screen validation is enabled by group policy"]
      pure true

/-- Check if the given uri is blocked by smart screen (source lines 84-97). The context
argument of the source is used for its reporter only. -/
def IsUriBlockedBySmartScreen (env : Env) (uri : String) : Flow Bool := do
  enter (Call.ValidateUri uri)
  let response := env.ValidateUri uri
  match response.Decision with
  | UriValidationDecision.Block =>
    AICLI_LOG LogLevel.Verbose
      [LogPart.text "URI '", LogPart.text uri,
        LogPart.text "' was blocked by smart screen. Feedback URL: ",
        LogPart.text response.Feedback]
    Reporter_Error ResourceString.UriBlockedBySmartScreen
    pure true
  | UriValidationDecision.Allow => pure false
  | UriValidationDecision.Other _ => pure false

/-- Whether the text starts with a match of the pattern `/zone(\d+)/`; the digits of the group.
The group must be followed by `/`, which is no digit, so it is the whole run of digits. -/
def matchZoneMarkerAt (s : List Char) : Option (List Char) :=
  match s with
  | '/' :: 'z' :: 'o' :: 'n' :: 'e' :: rest =>
    let number := rest.takeWhile Char.isDigit
    if number ≠ [] ∧ (rest.dropWhile Char.isDigit).head? = some '/' then some number else none
  | _ => none

/-- The call `std::regex_search(uri, match, std::regex("/zone(\\d+)/"))`: the first group of
the leftmost match, when there is a match. -/
def regex_search_zone : List Char → Option (List Char)
  | [] => none
  | c :: cs =>
    match matchZoneMarkerAt (c :: cs) with
    | some number => some number
    | none => regex_search_zone cs

/-- The value of a string of decimal digits. -/
def decimalValue (digits : List Char) : Nat :=
  digits.foldl (fun acc c => 10 * acc + (c.toNat - 48)) 0

/-- The largest `unsigned long` of the platform (32 bits on Windows). -/
def ULONG_MAX : Nat := 4294967295

/-- The call `std::stoul(number)` on a non-empty string of decimal digits: its value, or
`std::out_of_range` when the value does not fit an `unsigned long`. -/
def stoul (number : List Char) : Flow Nat :=
  if decimalValue number ≤ ULONG_MAX then pure (decimalValue number)
  else Flow.raise Exn.out_of_range

/-- Get Uri zone for a given uri or file path (source lines 100-134). -/
def GetUriZone (env : Env) (uri : String) : Flow (Except HRESULT SecurityZoneOptions) := do
  enter (Call.GetUriZone uri)
  match (if env.testHooks then regex_search_zone uri.toList else none) with
  | some number =>
    let value ← stoul number
    pure (Except.ok (SecurityZoneOptions.ofUnsigned value))
  | none =>
    enter (Call.MapUrlToZone uri)
    let mapResult := (env.MapUrlToZone uri).1
    let dwZone := (env.MapUrlToZone uri).2
    if FAILED mapResult then
      pure (Except.error mapResult)
    else if dwZone > SecurityZoneOptions.UntrustedSites.toDWORD then
      pure (Except.ok SecurityZoneOptions.UntrustedSites)
    else
      pure (Except.ok (SecurityZoneOptions.ofUnsigned dwZone))

/-- Source lines 136-147. -/
def GetIsSourceTrusted (context : Context) : Except HRESULT Bool :=
  match context.Data_PackageVersion_TrustLevel with
  | some trustLevel => Except.ok (WI_IsFlagSet trustLevel SourceTrustLevel_Trusted)
  | none => Except.error E_FAIL

/-- Source lines 149-158. -/
def GetInstallerUrl (context : Context) : Except HRESULT String :=
  match context.Data_Installer_Url with
  | some url => Except.ok url
  | none => Except.error E_FAIL

/-- Source lines 160-169. -/
def GetConfigurationUri (context : Context) : Except HRESULT String :=
  match context.Args_ConfigurationFile with
  | some arg => Except.ok arg
  | none => Except.error E_FAIL

/-- Source lines 171-182. -/
def GetSourceAddUrl (context : Context) : Except HRESULT String :=
  match context.Data_Source_Arg with
  | some arg => Except.ok arg
  | none => Except.error E_FAIL

/-- Validate group policy for a given zone (source lines 185-217). The context argument of the
source is used for its reporter only. -/
def IsZoneBlockedByGroupPolicy (env : Env) (zone : SecurityZoneOptions) : Flow Bool := do
  enter (Call.IsZoneBlockedByGroupPolicy zone)
  if !GroupPolicies_IsEnabled env.AllowedSecurityZones_State then
    AICLI_LOG LogLevel.Info
      [LogPart.text "WindowsPackageManagerAllowedSecurityZones policy is disabled"]
    pure false
  else
    match env.AllowedSecurityZones_Value with
    | none =>
      AICLI_LOG LogLevel.Warning
        [LogPart.text "WindowsPackageManagerAllowedSecurityZones policy is not set"]
      pure false
    | some allowedSecurityZones =>
      match allowedSecurityZones zone with
      | none =>
        AICLI_LOG LogLevel.Warning
          [LogPart.text "Security zone ", LogPart.zone zone,
            LogPart.text
              " was not found in the group policy WindowsPackageManagerAllowedSecurityZones"]
        pure false
      | some isAllowed =>
        if !isAllowed then
          AICLI_LOG LogLevel.Error
            [LogPart.text "Security zone ", LogPart.zone zone,
              LogPart.text " is blocked by group policy"]
          Reporter_Error ResourceString.UriSecurityZoneBlockedByPolicy
          pure true
        else
          AICLI_LOG LogLevel.Info
            [LogPart.text "Configuration is disabled in zone ", LogPart.zone zone]
          pure false

/-- The condition `IsSmartScreenRequired(zone, trusted) && IsUriBlockedBySmartScreen(context,
uri)` of the three evaluators: the right operand runs only when the left one is true. -/
def smartScreenBlocks (env : Env) (zone : SecurityZoneOptions) (isSourceTrusted : Bool)
    (uri : String) : Flow Bool := do
  if ← IsSmartScreenRequired env zone isSourceTrusted then
    IsUriBlockedBySmartScreen env uri
  else
    pure false

/-- Evaluate the configuration uri for group policy and smart screen (source lines 220-250). -/
def EvaluateConfigurationUri (env : Env) (context : Context) : Flow HRESULT := do
  match GetConfigurationUri context with
  | Except.error _ =>
    AICLI_LOG LogLevel.Warning
      [LogPart.text "Configuration URI is not available. Skipping validation."]
    pure S_OK
  | Except.ok configurationUri =>
    match ← GetUriZone env configurationUri with
    | Except.error _ =>
      AICLI_LOG LogLevel.Warning
        [LogPart.text "Failed to get zone for configuration URI: ",
          LogPart.text configurationUri, LogPart.text ". Skipping validation."]
      pure S_OK
    | Except.ok configurationUriZone =>
      if ← IsZoneBlockedByGroupPolicy env configurationUriZone then
        AICLI_LOG LogLevel.Error
          [LogPart.text "Configuration URI's zone is blocked by group policy: ",
            LogPart.text configurationUri, LogPart.text " (",
            LogPart.text (ToString configurationUriZone), LogPart.text ")"]
        pure env.codes.BLOCKED_BY_POLICY
      else if ← smartScreenBlocks env configurationUriZone false configurationUri then
        AICLI_LOG LogLevel.Error
          [LogPart.text "Configuration URI was blocked by smart screen: ",
            LogPart.text configurationUri]
        pure env.codes.BLOCKED_BY_REPUTATION_SERVICE
      else
        AICLI_LOG LogLevel.Info
          [LogPart.text "Configuration URI is validated: ", LogPart.text configurationUri]
        pure S_OK

/-- Source lines 252-289. -/
def EvaluateDownloadUri (env : Env) (context : Context) : Flow HRESULT := do
  match GetInstallerUrl context with
  | Except.error _ =>
    AICLI_LOG LogLevel.Warning
      [LogPart.text "Installer URL is not available. Skipping validation."]
    pure S_OK
  | Except.ok installerUrl =>
    match ← GetUriZone env installerUrl with
    | Except.error _ =>
      AICLI_LOG LogLevel.Warning
        [LogPart.text "Failed to get zone for installer URL: ", LogPart.text installerUrl,
          LogPart.text ". Skipping validation."]
      pure S_OK
    | Except.ok installerUrlZone =>
      if ← IsZoneBlockedByGroupPolicy env installerUrlZone then
        AICLI_LOG LogLevel.Error
          [LogPart.text "Installer URL's zone is blocked by group policy: ",
            LogPart.text installerUrl, LogPart.text " (",
            LogPart.text (ToString installerUrlZone), LogPart.text ")"]
        pure env.codes.BLOCKED_BY_POLICY
      else
        match GetIsSourceTrusted context with
        | Except.error _ =>
          AICLI_LOG LogLevel.Warning
            [LogPart.text
              "Source trust level is not available. Skipping smart screen validation."]
          pure S_OK
        | Except.ok isSourceTrusted =>
          if ← smartScreenBlocks env installerUrlZone isSourceTrusted installerUrl then
            AICLI_LOG LogLevel.Error
              [LogPart.text "Installer URL was blocked by smart screen: ",
                LogPart.text installerUrl]
            pure env.codes.BLOCKED_BY_REPUTATION_SERVICE
          else
            AICLI_LOG LogLevel.Info
              [LogPart.text "Installer URL is validated: ", LogPart.text installerUrl]
            pure S_OK

/-- Source lines 291-321. -/
def EvaluateSourceAddUri (env : Env) (context : Context) : Flow HRESULT := do
  match GetSourceAddUrl context with
  | Except.error _ =>
    AICLI_LOG LogLevel.Warning [LogPart.text "Source URL is not available. Skipping validation."]
    pure S_OK
  | Except.ok sourceAddUrl =>
    match ← GetUriZone env sourceAddUrl with
    | Except.error _ =>
      AICLI_LOG LogLevel.Warning
        [LogPart.text "Failed to get zone for source URL: ", LogPart.text sourceAddUrl,
          LogPart.text ". Skipping validation."]
      pure S_OK
    | Except.ok sourceAddUrlZone =>
      if ← IsZoneBlockedByGroupPolicy env sourceAddUrlZone then
        AICLI_LOG LogLevel.Error
          [LogPart.text "Source URL's zone is blocked by group policy: ",
            LogPart.text sourceAddUrl, LogPart.text " (",
            LogPart.text (ToString sourceAddUrlZone), LogPart.text ")"]
        pure env.codes.BLOCKED_BY_POLICY
      else if ← smartScreenBlocks env sourceAddUrlZone false sourceAddUrl then
        AICLI_LOG LogLevel.Error
          [LogPart.text "Source URL was blocked by smart screen: ", LogPart.text sourceAddUrl]
        pure env.codes.BLOCKED_BY_REPUTATION_SERVICE
      else
        AICLI_LOG LogLevel.Info
          [LogPart.text "Source URL is validated: ", LogPart.text sourceAddUrl]
        pure S_OK

/-- Source lines 323-336. -/
def EvaluateUri (env : Env) (context : Context) (uriValidationSource : UriValidationSource) :
    Flow HRESULT :=
  match uriValidationSource with
  | UriValidationSource.Configuration => EvaluateConfigurationUri env context
  | UriValidationSource.Package => EvaluateDownloadUri env context
  | UriValidationSource.SourceAdd => EvaluateSourceAddUri env context
  | UriValidationSource.Unrecognized _ => Flow.raise (Exn.hresult E_UNEXPECTED)

/-- Modelled from the spec: the macro `AICLI_TERMINATE_CONTEXT` is defined outside src/; by
the spec (section 4.5) it terminates the current command with the given error code. The
termination code of a context is `none` while the command goes on and `some hr` once the command
was terminated with `hr`. -/
def AICLI_TERMINATE_CONTEXT (hr : HRESULT) : Option HRESULT := some hr

/-- Execute the smart screen flow (source lines 340-347): the termination code of the context
after the workflow ran. -/
def ExecuteUriValidation (env : Env) (m_uriValidationSource : UriValidationSource)
    (context : Context) : Flow (Option HRESULT) := do
  let uriValidation ← EvaluateUri env context m_uriValidationSource
  if FAILED uriValidation then
    pure (AICLI_TERMINATE_CONTEXT uriValidation)
  else
    pure none

/-! ## The gates as functions of the environment -/

open SecurityZoneOptions

/-- The decision of `IsSmartScreenRequired`, read off the environment. -/
def smartScreenRequired (env : Env) (zone : SecurityZoneOptions) (isSourceTrusted : Bool) : Bool :=
  (zone = Internet || zone = UntrustedSites) &&
    (match env.SmartScreenCheck_State with
     | PolicyState.NotConfigured => env.SmartScreenCheck_AdminSetting && !isSourceTrusted
     | PolicyState.Disabled => false
     | PolicyState.Enabled => true)

/-- The decision of `IsZoneBlockedByGroupPolicy`, read off the environment. -/
def zoneBlocked (env : Env) (zone : SecurityZoneOptions) : Bool :=
  GroupPolicies_IsEnabled env.AllowedSecurityZones_State &&
    (match env.AllowedSecurityZones_Value with
     | some allowedSecurityZones => allowedSecurityZones zone == some false
     | none => false)

/-- The reputation check blocks: it is required and the verdict is `Block`. -/
def reputationBlocks (env : Env) (zone : SecurityZoneOptions) (isSourceTrusted : Bool)
    (uri : String) : Bool :=
  smartScreenRequired env zone isSourceTrusted &&
    decide ((env.ValidateUri uri).Decision = UriValidationDecision.Block)

/-! ## Sample inputs -/

/-- Sample values for the two error codes. -/
def sampleCodes : ErrorCodes := ⟨-1978335174, -1978334975, by decide, by decide, by decide⟩

/-- The allow-list holding the given entries (keys are distinct in a `std::map`; the first entry
of a key counts). -/
def allowListOf (entries : List (SecurityZoneOptions × Bool)) : ZoneAllowList :=
  fun zone => entries.lookup zone

/-- A sample environment: the OS maps every URI to the same result and the reputation service
gives every URI the same verdict. -/
def sampleEnv (testHooks : Bool) (mapped : HRESULT × DWORD) (zonesState : PolicyState)
    (zonesValue : Option ZoneAllowList) (smartScreenState : PolicyState) (adminSetting : Bool)
    (verdict : UriValidationResult) : Env where
  testHooks := testHooks
  codes := sampleCodes
  MapUrlToZone := fun _ => mapped
  AllowedSecurityZones_State := zonesState
  AllowedSecurityZones_Value := zonesValue
  SmartScreenCheck_State := smartScreenState
  SmartScreenCheck_AdminSetting := adminSetting
  ValidateUri := fun _ => verdict

/-- A sample context holding the given URI for every use case, and the given trust level. -/
def sampleContext (uri : String) (trustLevel : Option Nat) : Context :=
  ⟨some uri, some uri, some uri, trustLevel⟩

/-- Sample: allowed-zones policy Enabled with Internet mapped to false; every URI is in zone
Internet; smart-screen policy Enabled; the service answers Block. -/
def envInternetBlockedByPolicy : Env :=
  sampleEnv true (S_OK, 3) PolicyState.Enabled (some (allowListOf [(Internet, false)]))
    PolicyState.Enabled true ⟨UriValidationDecision.Block, "abc123"⟩

/-- Sample: allowed-zones policy Enabled with the allow-list Internet: false, UntrustedSites:
true. -/
def envAllowListSample : Env :=
  sampleEnv false (S_OK, 3) PolicyState.Enabled
    (some (allowListOf [(Internet, false), (UntrustedSites, true)]))
    PolicyState.NotConfigured true ⟨UriValidationDecision.Allow, ""⟩

/-- Sample: no zone is restricted by policy, every URI is in zone UntrustedSites, the
smart-screen policy is Disabled, and the service answers Block with feedback "abc123". -/
def envSmartScreenDisabled : Env :=
  sampleEnv false (S_OK, 4) PolicyState.NotConfigured none PolicyState.Disabled true
    ⟨UriValidationDecision.Block, "abc123"⟩

/-- Sample: allowed-zones policy Enabled with UntrustedSites mapped to false; every URI is in
zone UntrustedSites; smart-screen policy Enabled; the service answers Block with feedback
"abc123". -/
def envUntrustedBlockedByPolicy : Env :=
  sampleEnv false (S_OK, 4) PolicyState.Enabled (some (allowListOf [(UntrustedSites, false)]))
    PolicyState.Enabled true ⟨UriValidationDecision.Block, "abc123"⟩

/-- Sample: no zone is restricted by policy, every URI is in zone UntrustedSites, the
smart-screen policy is not configured and the admin setting is on, and the service answers
Block with feedback "abc123". -/
def envReputationBlocks : Env :=
  sampleEnv false (S_OK, 4) PolicyState.NotConfigured none PolicyState.NotConfigured true
    ⟨UriValidationDecision.Block, "abc123"⟩

/-- Sample: allowed-zones policy Enabled with Internet mapped to false; every URI is in zone
Internet; smart-screen policy not configured, admin setting on; the service answers Allow. -/
def envTrustedDownloadBlockedByPolicy : Env :=
  sampleEnv false (S_OK, 3) PolicyState.Enabled (some (allowListOf [(Internet, false)]))
    PolicyState.NotConfigured true ⟨UriValidationDecision.Allow, ""⟩

/-- Sample: test hooks compiled in; the OS maps every URI to the raw zone 7. -/
def envHooksRawSeven : Env :=
  sampleEnv true (S_OK, 7) PolicyState.NotConfigured none PolicyState.NotConfigured true
    ⟨UriValidationDecision.Allow, ""⟩

/-- Sample: the OS zone mapping fails with `E_FAIL`; the allowed-zones policy is Enabled and
its allow-list maps every zone to false; the smart-screen policy is Enabled and the service
answers Block. -/
def envZoneMappingFails : Env :=
  sampleEnv true (E_FAIL, 0) PolicyState.Enabled (some (fun _ => some false))
    PolicyState.Enabled true ⟨UriValidationDecision.Block, "abc123"⟩

/-- Sample: allowed-zones policy Enabled with an allow-list that has no entry for Internet;
every URI is in zone Internet; smart-screen policy not configured, admin setting on; the service
answers Allow. -/
def envAllowListOpen : Env :=
  sampleEnv false (S_OK, 3) PolicyState.Enabled (some (allowListOf [(UntrustedSites, false)]))
    PolicyState.NotConfigured true ⟨UriValidationDecision.Allow, ""⟩

/-! ## What an evaluation shows -/

/-- The calls of a trace, in order. -/
def calls (t : List Event) : List Call :=
  t.filterMap fun e =>
    match e with
    | Event.call c => some c
    | _ => none

/-- The messages written to the reporter, in order. -/
def reporterMessages (t : List Event) : List ResourceString :=
  t.filterMap fun e =>
    match e with
    | Event.reporterError message => some message
    | _ => none

/-- The log lines of a trace with their levels, in order. -/
def logLines (t : List Event) : List (LogLevel × List LogPart) :=
  t.filterMap fun e =>
    match e with
    | Event.log level parts => some (level, parts)
    | _ => none

/-- How often zone resolution or the OS zone mapping was called. -/
def zoneResolutionCalls (t : List Event) : Nat := t.countP Event.isZoneResolution

/-- The zone handed to the policy gate or to the reputation-requirement decision by this call,
if it is such a call, is one of the five recognised tiers. -/
def Call.zoneRecognized : Call → Bool
  | Call.IsZoneBlockedByGroupPolicy zone => zone.recognized
  | Call.IsSmartScreenRequired zone _ => zone.recognized
  | _ => true

/-- Every zone handed to the policy gate or to the reputation-requirement decision is one of
the five recognised tiers. -/
def gateZonesRecognized (t : List Event) : Bool := (calls t).all Call.zoneRecognized

/-- What an evaluation shows to its caller and its collaborators: how it ended, the calls it
made and what it wrote to the reporter. Log lines are left out. -/
structure Observation where
  value : Except Exn HRESULT
  calls : List Call
  reporter : List ResourceString

/-- The observation of an evaluation that has run. -/
def observe (m : Flow HRESULT) : Observation :=
  ⟨m.value, calls m.trace, reporterMessages m.trace⟩

/-- The shared shape of the three evaluators (source lines 220-321) as a function of the URI
of the use case, if any, and of the origin trust, if available. It is proved below to be the
observation of each evaluator and is used in proofs only. -/
def expectedEvaluation (env : Env) (uri : Option String) (trust : Option Bool) : Observation :=
  match uri with
  | none => ⟨Except.ok S_OK, [], []⟩
  | some uri =>
    match (GetUriZone env uri).value with
    | Except.error e => ⟨Except.error e, calls (GetUriZone env uri).trace, []⟩
    | Except.ok (Except.error _) => ⟨Except.ok S_OK, calls (GetUriZone env uri).trace, []⟩
    | Except.ok (Except.ok zone) =>
      if zoneBlocked env zone then
        ⟨Except.ok env.codes.BLOCKED_BY_POLICY,
          calls (GetUriZone env uri).trace ++ [Call.IsZoneBlockedByGroupPolicy zone],
          [ResourceString.UriSecurityZoneBlockedByPolicy]⟩
      else
        match trust with
        | none =>
          ⟨Except.ok S_OK,
            calls (GetUriZone env uri).trace ++ [Call.IsZoneBlockedByGroupPolicy zone], []⟩
        | some isSourceTrusted =>
          if smartScreenRequired env zone isSourceTrusted then
            if (env.ValidateUri uri).Decision = UriValidationDecision.Block then
              ⟨Except.ok env.codes.BLOCKED_BY_REPUTATION_SERVICE,
                calls (GetUriZone env uri).trace ++
                  [Call.IsZoneBlockedByGroupPolicy zone,
                    Call.IsSmartScreenRequired zone isSourceTrusted, Call.ValidateUri uri],
                [ResourceString.UriBlockedBySmartScreen]⟩
            else
              ⟨Except.ok S_OK,
                calls (GetUriZone env uri).trace ++
                  [Call.IsZoneBlockedByGroupPolicy zone,
                    Call.IsSmartScreenRequired zone isSourceTrusted, Call.ValidateUri uri],
                []⟩
          else
            ⟨Except.ok S_OK,
              calls (GetUriZone env uri).trace ++
                [Call.IsZoneBlockedByGroupPolicy zone,
                  Call.IsSmartScreenRequired zone isSourceTrusted],
              []⟩

/-- Whether the test hook of `GetUriZone` decides the zone of the URI. -/
def hookFires (env : Env) (uri : String) : Bool :=
  env.testHooks && (regex_search_zone uri.toList).isSome

/-- The URI a use case validates, when the context holds one (the result of
`GetConfigurationUri`, `GetInstallerUrl` or `GetSourceAddUrl`). -/
def useCaseUri (context : Context) : UriValidationSource → Option String
  | UriValidationSource.Configuration => context.Args_ConfigurationFile
  | UriValidationSource.Package => context.Data_Installer_Url
  | UriValidationSource.SourceAdd => context.Data_Source_Arg
  | UriValidationSource.Unrecognized _ => none

/-- The origin trust a use case hands to `IsSmartScreenRequired`, when it gets that far: the
literal `false` for Configuration and SourceAdd, the result of `GetIsSourceTrusted` for
PackageDownload (nothing when the context holds no package version). -/
def originTrust (context : Context) : UriValidationSource → Option Bool
  | UriValidationSource.Configuration => some false
  | UriValidationSource.Package =>
    context.Data_PackageVersion_TrustLevel.map
      fun trustLevel => WI_IsFlagSet trustLevel SourceTrustLevel_Trusted
  | UriValidationSource.SourceAdd => some false
  | UriValidationSource.Unrecognized _ => none

/-- The three use cases of the workflow. -/
def UriValidationSource.isUseCase : UriValidationSource → Bool
  | UriValidationSource.Unrecognized _ => false
  | _ => true

/-- A context without any URI and without a package version. -/
def emptyContext : Context := ⟨none, none, none, none⟩

/-- Sample: no zone is restricted by policy, every URI is in zone Internet, the smart-screen
policy is Enabled, and the service answers Block with feedback "abc123". -/
def envSmartScreenEnabled : Env :=
  sampleEnv false (S_OK, 3) PolicyState.NotConfigured none PolicyState.Enabled false
    ⟨UriValidationDecision.Block, "abc123"⟩

/-- Sample: no zone is restricted by policy, every URI is in zone Intranet, the smart-screen
policy is Enabled, the admin setting is on and the service answers Block. -/
def envIntranetStrict : Env :=
  sampleEnv false (S_OK, 1) PolicyState.NotConfigured none PolicyState.Enabled true
    ⟨UriValidationDecision.Block, "abc123"⟩

/-- Sample: every URI is in zone Intranet, the smart-screen policy is Disabled, the admin
setting is off and the service answers Allow; the allowed-zones policy store is the one of
`envIntranetStrict`. -/
def envIntranetLax : Env :=
  sampleEnv false (S_OK, 1) PolicyState.NotConfigured none PolicyState.Disabled false
    ⟨UriValidationDecision.Allow, ""⟩

/-- The test hook of `GetUriZone` fires on the URI and sets a zone above UntrustedSites: the
number of the marker fits an `unsigned long` and exceeds the ordinal of UntrustedSites. -/
def hookSetsZoneAboveUntrusted (env : Env) (uri : String) : Bool :=
  env.testHooks &&
    match regex_search_zone uri.toList with
    | some number =>
      decide (UntrustedSites.toDWORD < decimalValue number) &&
        decide (decimalValue number ≤ ULONG_MAX)
    | none => false

/-! ## Reasoning about `Flow` -/

namespace Flow

@[simp] theorem pure_trace {α : Type} (a : α) : (pure a : Flow α).trace = [] := rfl

@[simp] theorem pure_value {α : Type} (a : α) : (pure a : Flow α).value = Except.ok a := rfl

@[simp] theorem emit_trace (e : Event) : (emit e).trace = [e] := rfl

@[simp] theorem emit_value (e : Event) : (emit e).value = Except.ok () := rfl

@[simp] theorem raise_trace {α : Type} (e : Exn) : (raise e : Flow α).trace = [] := rfl

@[simp] theorem raise_value {α : Type} (e : Exn) :
    (raise e : Flow α).value = Except.error e := rfl

@[simp] theorem bind_value {α β : Type} (m : Flow α) (f : α → Flow β) :
    (m >>= f).value =
      match m.value with
      | Except.ok a => (f a).value
      | Except.error e => Except.error e := by
  show (andThen m f).value = _
  unfold andThen
  cases m.value <;> rfl

@[simp] theorem bind_trace {α β : Type} (m : Flow α) (f : α → Flow β) :
    (m >>= f).trace =
      match m.value with
      | Except.ok a => m.trace ++ (f a).trace
      | Except.error _ => m.trace := by
  show (andThen m f).trace = _
  unfold andThen
  cases m.value <;> rfl

end Flow

/-! ## Trace counting -/

@[simp] theorem validateUriCalls_nil : validateUriCalls [] = 0 := rfl

@[simp] theorem validateUriCalls_append (s t : List Event) :
    validateUriCalls (s ++ t) = validateUriCalls s + validateUriCalls t := by
  simp [validateUriCalls, List.countP_append]

@[simp] theorem validateUriCalls_cons (e : Event) (t : List Event) :
    validateUriCalls (e :: t) = validateUriCalls t + (if e.isValidateUri then 1 else 0) := by
  simp [validateUriCalls, List.countP_cons]

@[simp] theorem policyGateCalls_nil : policyGateCalls [] = 0 := rfl

@[simp] theorem policyGateCalls_append (s t : List Event) :
    policyGateCalls (s ++ t) = policyGateCalls s + policyGateCalls t := by
  simp [policyGateCalls, List.countP_append]

@[simp] theorem policyGateCalls_cons (e : Event) (t : List Event) :
    policyGateCalls (e :: t) = policyGateCalls t + (if e.isPolicyGate then 1 else 0) := by
  simp [policyGateCalls, List.countP_cons]

/-! ## The gates, characterised -/

theorem IsSmartScreenRequired_value (env : Env) (zone : SecurityZoneOptions) (t : Bool) :
    (IsSmartScreenRequired env zone t).value = Except.ok (smartScreenRequired env zone t) := by
  simp only [IsSmartScreenRequired, smartScreenRequired, enter, AICLI_LOG]
  by_cases h1 : zone = Internet <;> by_cases h2 : zone = UntrustedSites <;>
    cases h3 : env.SmartScreenCheck_State <;> cases h4 : env.SmartScreenCheck_AdminSetting <;>
    cases t <;> simp [h1, h2, h3, h4]

theorem IsSmartScreenRequired_validateUriCalls (env : Env) (zone : SecurityZoneOptions) (t : Bool) :
    validateUriCalls (IsSmartScreenRequired env zone t).trace = 0 := by
  simp only [IsSmartScreenRequired, enter, AICLI_LOG]
  by_cases h1 : zone = Internet <;> by_cases h2 : zone = UntrustedSites <;>
    cases h3 : env.SmartScreenCheck_State <;> cases h4 : env.SmartScreenCheck_AdminSetting <;>
    cases t <;> simp [h1, h2, h3, h4, Event.isValidateUri]

theorem IsZoneBlockedByGroupPolicy_value (env : Env) (zone : SecurityZoneOptions) :
    (IsZoneBlockedByGroupPolicy env zone).value = Except.ok (zoneBlocked env zone) := by
  simp only [IsZoneBlockedByGroupPolicy, zoneBlocked, enter, AICLI_LOG, Reporter_Error]
  cases h1 : GroupPolicies_IsEnabled env.AllowedSecurityZones_State
  · simp
  · cases h2 : env.AllowedSecurityZones_Value with
    | none => simp
    | some m =>
      cases h3 : m zone with
      | none => simp [h3]
      | some b => cases b <;> simp [h3]

theorem IsZoneBlockedByGroupPolicy_validateUriCalls (env : Env) (zone : SecurityZoneOptions) :
    validateUriCalls (IsZoneBlockedByGroupPolicy env zone).trace = 0 := by
  simp only [IsZoneBlockedByGroupPolicy, enter, AICLI_LOG, Reporter_Error]
  cases h1 : GroupPolicies_IsEnabled env.AllowedSecurityZones_State
  · simp [Event.isValidateUri]
  · cases h2 : env.AllowedSecurityZones_Value with
    | none => simp [Event.isValidateUri]
    | some m =>
      cases h3 : m zone with
      | none => simp [h3, Event.isValidateUri]
      | some b => cases b <;> simp [h3, Event.isValidateUri]

theorem IsUriBlockedBySmartScreen_value (env : Env) (uri : String) :
    (IsUriBlockedBySmartScreen env uri).value =
      Except.ok (decide ((env.ValidateUri uri).Decision = UriValidationDecision.Block)) := by
  simp only [IsUriBlockedBySmartScreen, enter, AICLI_LOG, Reporter_Error]
  cases h : (env.ValidateUri uri).Decision <;> simp [h]

theorem IsUriBlockedBySmartScreen_validateUriCalls (env : Env) (uri : String) :
    validateUriCalls (IsUriBlockedBySmartScreen env uri).trace = 1 := by
  simp only [IsUriBlockedBySmartScreen, enter, AICLI_LOG, Reporter_Error]
  cases h : (env.ValidateUri uri).Decision <;> simp [h, Event.isValidateUri]

theorem smartScreenBlocks_value (env : Env) (zone : SecurityZoneOptions) (t : Bool)
    (uri : String) :
    (smartScreenBlocks env zone t uri).value =
      Except.ok (smartScreenRequired env zone t &&
        decide ((env.ValidateUri uri).Decision = UriValidationDecision.Block)) := by
  simp only [smartScreenBlocks, Flow.bind_value, IsSmartScreenRequired_value]
  cases smartScreenRequired env zone t <;> simp [IsUriBlockedBySmartScreen_value]

theorem smartScreenBlocks_validateUriCalls (env : Env) (zone : SecurityZoneOptions) (t : Bool)
    (uri : String) :
    validateUriCalls (smartScreenBlocks env zone t uri).trace =
      if smartScreenRequired env zone t then 1 else 0 := by
  simp only [smartScreenBlocks, Flow.bind_trace, IsSmartScreenRequired_value]
  cases smartScreenRequired env zone t <;>
    simp [IsUriBlockedBySmartScreen_validateUriCalls, IsSmartScreenRequired_validateUriCalls]

theorem stoul_trace (number : List Char) : (stoul number).trace = [] := by
  unfold stoul; split <;> rfl

theorem GetUriZone_validateUriCalls (env : Env) (uri : String) :
    validateUriCalls (GetUriZone env uri).trace = 0 := by
  simp only [GetUriZone, enter]
  split
  · simp [stoul_trace, Event.isValidateUri]; split <;> simp
  · simp [Event.isValidateUri]
    split
    · simp
    · split <;> simp

theorem GetUriZone_policyGateCalls (env : Env) (uri : String) :
    policyGateCalls (GetUriZone env uri).trace = 0 := by
  simp only [GetUriZone, enter]
  split
  · simp [stoul_trace, Event.isPolicyGate]; split <;> simp
  · simp [Event.isPolicyGate]
    split
    · simp
    · split <;> simp

/-! ## The evaluators, case by case -/

theorem smartScreenBlocks_value_eq (env : Env) (zone : SecurityZoneOptions) (t : Bool)
    (uri : String) :
    (smartScreenBlocks env zone t uri).value = Except.ok (reputationBlocks env zone t uri) :=
  smartScreenBlocks_value env zone t uri

theorem EvaluateConfigurationUri_failed_zone (env : Env) (context : Context) (uri : String)
    (hr : HRESULT) (huri : context.Args_ConfigurationFile = some uri)
    (hzone : (GetUriZone env uri).value = Except.ok (Except.error hr)) :
    (EvaluateConfigurationUri env context).value = Except.ok S_OK ∧
    (EvaluateConfigurationUri env context).trace = (GetUriZone env uri).trace ++
      [Event.log LogLevel.Warning [LogPart.text "Failed to get zone for configuration URI: ",
        LogPart.text uri, LogPart.text ". Skipping validation."]] := by
  simp [EvaluateConfigurationUri, GetConfigurationUri, huri, hzone, AICLI_LOG]

theorem EvaluateDownloadUri_failed_zone (env : Env) (context : Context) (uri : String)
    (hr : HRESULT) (huri : context.Data_Installer_Url = some uri)
    (hzone : (GetUriZone env uri).value = Except.ok (Except.error hr)) :
    (EvaluateDownloadUri env context).value = Except.ok S_OK ∧
    (EvaluateDownloadUri env context).trace = (GetUriZone env uri).trace ++
      [Event.log LogLevel.Warning [LogPart.text "Failed to get zone for installer URL: ",
        LogPart.text uri, LogPart.text ". Skipping validation."]] := by
  simp [EvaluateDownloadUri, GetInstallerUrl, huri, hzone, AICLI_LOG]

theorem EvaluateSourceAddUri_failed_zone (env : Env) (context : Context) (uri : String)
    (hr : HRESULT) (huri : context.Data_Source_Arg = some uri)
    (hzone : (GetUriZone env uri).value = Except.ok (Except.error hr)) :
    (EvaluateSourceAddUri env context).value = Except.ok S_OK ∧
    (EvaluateSourceAddUri env context).trace = (GetUriZone env uri).trace ++
      [Event.log LogLevel.Warning [LogPart.text "Failed to get zone for source URL: ",
        LogPart.text uri, LogPart.text ". Skipping validation."]] := by
  simp [EvaluateSourceAddUri, GetSourceAddUrl, huri, hzone, AICLI_LOG]

theorem EvaluateConfigurationUri_resolved (env : Env) (context : Context) (uri : String)
    (zone : SecurityZoneOptions) (huri : context.Args_ConfigurationFile = some uri)
    (hzone : (GetUriZone env uri).value = Except.ok (Except.ok zone)) :
    (EvaluateConfigurationUri env context).value =
      Except.ok (if zoneBlocked env zone then env.codes.BLOCKED_BY_POLICY
        else if reputationBlocks env zone false uri then env.codes.BLOCKED_BY_REPUTATION_SERVICE
        else S_OK) ∧
    (EvaluateConfigurationUri env context).trace =
      (GetUriZone env uri).trace ++ ((IsZoneBlockedByGroupPolicy env zone).trace ++
        if zoneBlocked env zone then
          [Event.log LogLevel.Error
            [LogPart.text "Configuration URI's zone is blocked by group policy: ",
              LogPart.text uri, LogPart.text " (", LogPart.text (ToString zone),
              LogPart.text ")"]]
        else (smartScreenBlocks env zone false uri).trace ++
          if reputationBlocks env zone false uri then
            [Event.log LogLevel.Error
              [LogPart.text "Configuration URI was blocked by smart screen: ", LogPart.text uri]]
          else
            [Event.log LogLevel.Info
              [LogPart.text "Configuration URI is validated: ", LogPart.text uri]]) := by
  simp only [EvaluateConfigurationUri, GetConfigurationUri, huri, Flow.bind_value,
    Flow.bind_trace, hzone, IsZoneBlockedByGroupPolicy_value, AICLI_LOG]
  cases h1 : zoneBlocked env zone <;> cases h2 : reputationBlocks env zone false uri <;>
    simp [smartScreenBlocks_value_eq, h2]

theorem EvaluateSourceAddUri_resolved (env : Env) (context : Context) (uri : String)
    (zone : SecurityZoneOptions) (huri : context.Data_Source_Arg = some uri)
    (hzone : (GetUriZone env uri).value = Except.ok (Except.ok zone)) :
    (EvaluateSourceAddUri env context).value =
      Except.ok (if zoneBlocked env zone then env.codes.BLOCKED_BY_POLICY
        else if reputationBlocks env zone false uri then env.codes.BLOCKED_BY_REPUTATION_SERVICE
        else S_OK) ∧
    (EvaluateSourceAddUri env context).trace =
      (GetUriZone env uri).trace ++ ((IsZoneBlockedByGroupPolicy env zone).trace ++
        if zoneBlocked env zone then
          [Event.log LogLevel.Error
            [LogPart.text "Source URL's zone is blocked by group policy: ",
              LogPart.text uri, LogPart.text " (", LogPart.text (ToString zone),
              LogPart.text ")"]]
        else (smartScreenBlocks env zone false uri).trace ++
          if reputationBlocks env zone false uri then
            [Event.log LogLevel.Error
              [LogPart.text "Source URL was blocked by smart screen: ", LogPart.text uri]]
          else
            [Event.log LogLevel.Info
              [LogPart.text "Source URL is validated: ", LogPart.text uri]]) := by
  simp only [EvaluateSourceAddUri, GetSourceAddUrl, huri, Flow.bind_value,
    Flow.bind_trace, hzone, IsZoneBlockedByGroupPolicy_value, AICLI_LOG]
  cases h1 : zoneBlocked env zone <;> cases h2 : reputationBlocks env zone false uri <;>
    simp [smartScreenBlocks_value_eq, h2]

theorem EvaluateDownloadUri_resolved (env : Env) (context : Context) (uri : String)
    (zone : SecurityZoneOptions) (huri : context.Data_Installer_Url = some uri)
    (hzone : (GetUriZone env uri).value = Except.ok (Except.ok zone)) :
    (EvaluateDownloadUri env context).value =
      Except.ok (if zoneBlocked env zone then env.codes.BLOCKED_BY_POLICY
        else match context.Data_PackageVersion_TrustLevel with
          | none => S_OK
          | some trustLevel =>
            if reputationBlocks env zone (WI_IsFlagSet trustLevel SourceTrustLevel_Trusted) uri
            then env.codes.BLOCKED_BY_REPUTATION_SERVICE
            else S_OK) ∧
    (EvaluateDownloadUri env context).trace =
      (GetUriZone env uri).trace ++ ((IsZoneBlockedByGroupPolicy env zone).trace ++
        if zoneBlocked env zone then
          [Event.log LogLevel.Error
            [LogPart.text "Installer URL's zone is blocked by group policy: ",
              LogPart.text uri, LogPart.text " (", LogPart.text (ToString zone),
              LogPart.text ")"]]
        else match context.Data_PackageVersion_TrustLevel with
          | none =>
            [Event.log LogLevel.Warning [LogPart.text
              "Source trust level is not available. Skipping smart screen validation."]]
          | some trustLevel =>
            (smartScreenBlocks env zone (WI_IsFlagSet trustLevel SourceTrustLevel_Trusted)
                uri).trace ++
              if reputationBlocks env zone (WI_IsFlagSet trustLevel SourceTrustLevel_Trusted) uri
              then
                [Event.log LogLevel.Error
                  [LogPart.text "Installer URL was blocked by smart screen: ", LogPart.text uri]]
              else
                [Event.log LogLevel.Info
                  [LogPart.text "Installer URL is validated: ", LogPart.text uri]]) := by
  simp only [EvaluateDownloadUri, GetInstallerUrl, GetIsSourceTrusted, huri, Flow.bind_value,
    Flow.bind_trace, hzone, IsZoneBlockedByGroupPolicy_value, AICLI_LOG]
  cases h1 : zoneBlocked env zone
  · cases h0 : context.Data_PackageVersion_TrustLevel with
    | none => simp
    | some trustLevel =>
      cases h2 : reputationBlocks env zone (WI_IsFlagSet trustLevel SourceTrustLevel_Trusted) uri <;>
        simp [smartScreenBlocks_value_eq, h2]
  · simp

/-! ## Zone resolution -/

@[simp] theorem smartScreenRequiredCalls_nil : smartScreenRequiredCalls [] = 0 := rfl

@[simp] theorem smartScreenRequiredCalls_append (s t : List Event) :
    smartScreenRequiredCalls (s ++ t) = smartScreenRequiredCalls s + smartScreenRequiredCalls t := by
  simp [smartScreenRequiredCalls, List.countP_append]

@[simp] theorem smartScreenRequiredCalls_cons (e : Event) (t : List Event) :
    smartScreenRequiredCalls (e :: t) =
      smartScreenRequiredCalls t + (if e.isSmartScreenRequired then 1 else 0) := by
  simp [smartScreenRequiredCalls, List.countP_cons]

theorem GetUriZone_smartScreenRequiredCalls (env : Env) (uri : String) :
    smartScreenRequiredCalls (GetUriZone env uri).trace = 0 := by
  simp only [GetUriZone, enter]
  split
  · simp [stoul_trace, Event.isSmartScreenRequired]; split <;> simp
  · simp [Event.isSmartScreenRequired]
    split
    · simp
    · split <;> simp

theorem toDWORD_UntrustedSites : UntrustedSites.toDWORD = 4 := by decide

theorem ofUnsigned_small (v : Nat) (h : v ≤ 4) : ofUnsigned v = ⟨(v : Int)⟩ := by
  have h1 : v % 4294967296 = v := Nat.mod_eq_of_lt (by omega)
  have h2 : v < 2147483648 := by omega
  simp [ofUnsigned, h1, h2]

/-- When the test hook does not fire, the zone is the clamped result of the OS mapping. -/
theorem GetUriZone_mapped (env : Env) (uri : String)
    (hhook : env.testHooks = false ∨ regex_search_zone uri.toList = none) :
    (GetUriZone env uri).value =
      Except.ok (if FAILED (env.MapUrlToZone uri).1 then Except.error (env.MapUrlToZone uri).1
        else if 4 < (env.MapUrlToZone uri).2 then Except.ok UntrustedSites
        else Except.ok ⟨((env.MapUrlToZone uri).2 : Int)⟩) := by
  have hnone : (if env.testHooks then regex_search_zone uri.toList else none) = none := by
    rcases hhook with h | h
    · simp [h]
    · rw [h]; simp
  simp only [GetUriZone, enter, hnone, Flow.bind_value, Flow.emit_value, toDWORD_UntrustedSites]
  by_cases h1 : FAILED (env.MapUrlToZone uri).1 = true
  · simp [h1]
  · by_cases h2 : 4 < (env.MapUrlToZone uri).2
    · simp [h1, h2]
    · simp [h1, h2, ofUnsigned_small _ (Nat.le_of_not_lt h2)]

/-- When the test hook fires, the zone is the number of the marker, if it fits. -/
theorem GetUriZone_marker (env : Env) (uri : String) (number : List Char)
    (hhook : env.testHooks = true) (hmatch : regex_search_zone uri.toList = some number) :
    (GetUriZone env uri).value =
      if decimalValue number ≤ ULONG_MAX then
        Except.ok (Except.ok (ofUnsigned (decimalValue number)))
      else Except.error Exn.out_of_range := by
  simp only [GetUriZone, enter, hhook, hmatch, if_true, Flow.bind_value, Flow.emit_value, stoul]
  by_cases h : decimalValue number ≤ ULONG_MAX <;> simp [h]

/-- A failing zone resolution is a failing OS mapping, whose code it returns. -/
theorem GetUriZone_error (env : Env) (uri : String) (hr : HRESULT)
    (h : (GetUriZone env uri).value = Except.ok (Except.error hr)) :
    hr = (env.MapUrlToZone uri).1 ∧ FAILED hr = true := by
  simp only [GetUriZone, enter, Flow.bind_value, Flow.emit_value, stoul] at h
  split at h
  · split at h <;> simp at h
  · by_cases h1 : FAILED (env.MapUrlToZone uri).1 = true
    · simp [h1] at h
      subst h
      exact ⟨rfl, h1⟩
    · simp [h1] at h
      split at h <;> simp at h

/-! ## Claims -/

/-- C1: for each of the three use cases, whenever the URI is present, its zone resolves and
`IsZoneBlockedByGroupPolicy` returns true for that zone, the outcome is the blocked-by-policy
error and `ValidateUri` is never invoked, whatever the smart-screen policy state, the admin
setting, the source trust and the reputation verdict are. -/
theorem policy_block_short_circuits (env : Env) (context : Context) (uri : String)
    (zone : SecurityZoneOptions)
    (hzone : (GetUriZone env uri).value = Except.ok (Except.ok zone))
    (hblocked : (IsZoneBlockedByGroupPolicy env zone).value = Except.ok true) :
    (context.Args_ConfigurationFile = some uri →
      (EvaluateConfigurationUri env context).value = Except.ok env.codes.BLOCKED_BY_POLICY ∧
      validateUriCalls (EvaluateConfigurationUri env context).trace = 0) ∧
    (context.Data_Installer_Url = some uri →
      (EvaluateDownloadUri env context).value = Except.ok env.codes.BLOCKED_BY_POLICY ∧
      validateUriCalls (EvaluateDownloadUri env context).trace = 0) ∧
    (context.Data_Source_Arg = some uri →
      (EvaluateSourceAddUri env context).value = Except.ok env.codes.BLOCKED_BY_POLICY ∧
      validateUriCalls (EvaluateSourceAddUri env context).trace = 0) := by
  have hb : zoneBlocked env zone = true := by
    rw [IsZoneBlockedByGroupPolicy_value] at hblocked
    simpa using hblocked
  refine ⟨fun huri => ?_, fun huri => ?_, fun huri => ?_⟩
  · obtain ⟨hv, ht⟩ := EvaluateConfigurationUri_resolved env context uri zone huri hzone
    refine ⟨by simp [hv, hb], ?_⟩
    simp [ht, hb, GetUriZone_validateUriCalls, IsZoneBlockedByGroupPolicy_validateUriCalls,
      Event.isValidateUri]
  · obtain ⟨hv, ht⟩ := EvaluateDownloadUri_resolved env context uri zone huri hzone
    refine ⟨by simp [hv, hb], ?_⟩
    simp [ht, hb, GetUriZone_validateUriCalls, IsZoneBlockedByGroupPolicy_validateUriCalls,
      Event.isValidateUri]
  · obtain ⟨hv, ht⟩ := EvaluateSourceAddUri_resolved env context uri zone huri hzone
    refine ⟨by simp [hv, hb], ?_⟩
    simp [ht, hb, GetUriZone_validateUriCalls, IsZoneBlockedByGroupPolicy_validateUriCalls,
      Event.isValidateUri]

/-- C1, witness: source registration with the allowed-zones policy Enabled, Internet mapped to
false and a URL in zone Internet is blocked by policy without a reputation query, although the
smart-screen policy is Enabled and the service would answer Block. -/
theorem policy_block_short_circuits_witness :
    (GetUriZone envInternetBlockedByPolicy "https://example.com/index").value = Except.ok (Except.ok Internet) ∧
    (IsZoneBlockedByGroupPolicy envInternetBlockedByPolicy Internet).value = Except.ok true ∧
    (EvaluateSourceAddUri envInternetBlockedByPolicy
      (sampleContext "https://example.com/index" none)).value =
        Except.ok sampleCodes.BLOCKED_BY_POLICY ∧
    validateUriCalls (EvaluateSourceAddUri envInternetBlockedByPolicy
      (sampleContext "https://example.com/index" none)).trace = 0 :=
  ⟨by rfl, by rfl,
    (policy_block_short_circuits envInternetBlockedByPolicy
      (sampleContext "https://example.com/index" none)
      "https://example.com/index" Internet (by rfl) (by rfl)).2.2 rfl⟩

/-- C2: for every zone and every policy store state, `IsZoneBlockedByGroupPolicy` returns, and
it returns true if and only if the allowed-security-zones policy is enabled, an allow-list value
is configured and the list has an entry for the zone whose value is false. In particular it
returns false when the policy is not configured, when the list is missing and when the zone has
no entry. With the list Internet: false, UntrustedSites: true it blocks Internet and neither
UntrustedSites nor LocalMachine. -/
theorem zone_blocked_iff_mapped_to_false :
    (∀ (env : Env) (zone : SecurityZoneOptions),
      ∃ blocked, (IsZoneBlockedByGroupPolicy env zone).value = Except.ok blocked ∧
        (blocked = true ↔
          env.AllowedSecurityZones_State = PolicyState.Enabled ∧
          ∃ allowList, env.AllowedSecurityZones_Value = some allowList ∧
            allowList zone = some false)) ∧
    (∀ (env : Env) (zone : SecurityZoneOptions),
      env.AllowedSecurityZones_State = PolicyState.NotConfigured →
        (IsZoneBlockedByGroupPolicy env zone).value = Except.ok false) ∧
    (∀ (env : Env) (zone : SecurityZoneOptions),
      env.AllowedSecurityZones_Value = none →
        (IsZoneBlockedByGroupPolicy env zone).value = Except.ok false) ∧
    (∀ (env : Env) (zone : SecurityZoneOptions) (allowList : ZoneAllowList),
      env.AllowedSecurityZones_Value = some allowList → allowList zone = none →
        (IsZoneBlockedByGroupPolicy env zone).value = Except.ok false) ∧
    (∀ (env : Env), env.AllowedSecurityZones_State = PolicyState.Enabled →
      env.AllowedSecurityZones_Value =
        some (allowListOf [(Internet, false), (UntrustedSites, true)]) →
      (IsZoneBlockedByGroupPolicy env Internet).value = Except.ok true ∧
      (IsZoneBlockedByGroupPolicy env UntrustedSites).value = Except.ok false ∧
      (IsZoneBlockedByGroupPolicy env LocalMachine).value = Except.ok false) := by
  refine ⟨fun env zone => ⟨zoneBlocked env zone, IsZoneBlockedByGroupPolicy_value env zone, ?_⟩,
    fun env zone h => ?_, fun env zone h => ?_, fun env zone allowList h1 h2 => ?_,
    fun env h1 h2 => ?_⟩
  · unfold zoneBlocked GroupPolicies_IsEnabled
    cases h : env.AllowedSecurityZones_Value <;> simp
  · simp [IsZoneBlockedByGroupPolicy_value, zoneBlocked, GroupPolicies_IsEnabled, h]
  · simp [IsZoneBlockedByGroupPolicy_value, zoneBlocked, h]
  · simp [IsZoneBlockedByGroupPolicy_value, zoneBlocked, h1, h2]
  · simp only [IsZoneBlockedByGroupPolicy_value, zoneBlocked, GroupPolicies_IsEnabled, h1, h2]
    exact ⟨rfl, rfl, rfl⟩

/-- C2, witness: the policy store with the allowed-zones policy Enabled and the allow-list
Internet: false, UntrustedSites: true. -/
theorem zone_blocked_iff_mapped_to_false_witness :
    (IsZoneBlockedByGroupPolicy envAllowListSample Internet).value = Except.ok true ∧
    (IsZoneBlockedByGroupPolicy envAllowListSample UntrustedSites).value = Except.ok false ∧
    (IsZoneBlockedByGroupPolicy envAllowListSample LocalMachine).value = Except.ok false :=
  zone_blocked_iff_mapped_to_false.2.2.2.2 envAllowListSample rfl rfl

/-- C3: for every zone among LocalMachine, Intranet and TrustedSites, `IsSmartScreenRequired`
returns false, for every smart-screen policy state, admin setting and source trust value. -/
theorem smart_screen_not_required_in_trusted_zones (env : Env) (zone : SecurityZoneOptions)
    (isSourceTrusted : Bool)
    (hzone : zone = LocalMachine ∨ zone = Intranet ∨ zone = TrustedSites) :
    (IsSmartScreenRequired env zone isSourceTrusted).value = Except.ok false := by
  rw [IsSmartScreenRequired_value]
  rcases hzone with h | h | h <;> subst h <;>
    simp [smartScreenRequired, LocalMachine, Intranet, TrustedSites, Internet, UntrustedSites]

/-- C3, witness: zone Intranet under the smart-screen policy Enabled with an untrusted origin. -/
theorem smart_screen_not_required_in_trusted_zones_witness :
    (Intranet = LocalMachine ∨ Intranet = Intranet ∨ Intranet = TrustedSites) ∧
    (IsSmartScreenRequired envInternetBlockedByPolicy Intranet false).value = Except.ok false :=
  ⟨Or.inr (Or.inl rfl),
    smart_screen_not_required_in_trusted_zones envInternetBlockedByPolicy Intranet false
      (Or.inr (Or.inl rfl))⟩

/-- C4: if the smart-screen group policy state is Enabled, `IsSmartScreenRequired` returns true
for zone Internet and for zone UntrustedSites, for every admin setting and every source trust
value. -/
theorem smart_screen_required_when_policy_enabled (env : Env) (isSourceTrusted : Bool)
    (hstate : env.SmartScreenCheck_State = PolicyState.Enabled) :
    (IsSmartScreenRequired env Internet isSourceTrusted).value = Except.ok true ∧
    (IsSmartScreenRequired env UntrustedSites isSourceTrusted).value = Except.ok true := by
  simp [IsSmartScreenRequired_value, smartScreenRequired, hstate]

/-- C4, witness: policy Enabled while the admin setting is off and the origin is trusted. -/
theorem smart_screen_required_when_policy_enabled_witness :
    (sampleEnv false (S_OK, 3) PolicyState.NotConfigured none PolicyState.Enabled false
      ⟨UriValidationDecision.Allow, ""⟩).SmartScreenCheck_State = PolicyState.Enabled ∧
    (IsSmartScreenRequired
      (sampleEnv false (S_OK, 3) PolicyState.NotConfigured none PolicyState.Enabled false
        ⟨UriValidationDecision.Allow, ""⟩) Internet true).value = Except.ok true ∧
    (IsSmartScreenRequired
      (sampleEnv false (S_OK, 3) PolicyState.NotConfigured none PolicyState.Enabled false
        ⟨UriValidationDecision.Allow, ""⟩) UntrustedSites true).value = Except.ok true :=
  ⟨rfl, smart_screen_required_when_policy_enabled _ true rfl⟩

/-- C5: if the smart-screen group policy state is Disabled, `IsSmartScreenRequired` returns
false for every zone, Internet and UntrustedSites included, every admin setting and every source
trust value. -/
theorem smart_screen_not_required_when_policy_disabled (env : Env) (zone : SecurityZoneOptions)
    (isSourceTrusted : Bool) (hstate : env.SmartScreenCheck_State = PolicyState.Disabled) :
    (IsSmartScreenRequired env zone isSourceTrusted).value = Except.ok false := by
  simp [IsSmartScreenRequired_value, smartScreenRequired, hstate]

/-- C5, witness: policy Disabled, admin setting on, untrusted origin, zone UntrustedSites. -/
theorem smart_screen_not_required_when_policy_disabled_witness :
    (sampleEnv false (S_OK, 4) PolicyState.NotConfigured none PolicyState.Disabled true
      ⟨UriValidationDecision.Block, ""⟩).SmartScreenCheck_State = PolicyState.Disabled ∧
    (IsSmartScreenRequired
      (sampleEnv false (S_OK, 4) PolicyState.NotConfigured none PolicyState.Disabled true
        ⟨UriValidationDecision.Block, ""⟩) UntrustedSites false).value = Except.ok false :=
  ⟨rfl, smart_screen_not_required_when_policy_disabled _ UntrustedSites false rfl⟩

/-- C6: if the smart-screen group policy state is NotConfigured, then for zone Internet or
UntrustedSites `IsSmartScreenRequired` returns (admin setting is on and the origin is not
trusted): false whenever the admin setting is off, false when it is on and the origin is trusted,
true when it is on and the origin is untrusted. -/
theorem smart_screen_falls_back_to_admin_setting (env : Env) (zone : SecurityZoneOptions)
    (isSourceTrusted : Bool) (hstate : env.SmartScreenCheck_State = PolicyState.NotConfigured)
    (hzone : zone = Internet ∨ zone = UntrustedSites) :
    (IsSmartScreenRequired env zone isSourceTrusted).value =
      Except.ok (env.SmartScreenCheck_AdminSetting && !isSourceTrusted) ∧
    (env.SmartScreenCheck_AdminSetting = false →
      (IsSmartScreenRequired env zone isSourceTrusted).value = Except.ok false) ∧
    (env.SmartScreenCheck_AdminSetting = true → isSourceTrusted = true →
      (IsSmartScreenRequired env zone isSourceTrusted).value = Except.ok false) ∧
    (env.SmartScreenCheck_AdminSetting = true → isSourceTrusted = false →
      (IsSmartScreenRequired env zone isSourceTrusted).value = Except.ok true) := by
  have h : (IsSmartScreenRequired env zone isSourceTrusted).value =
      Except.ok (env.SmartScreenCheck_AdminSetting && !isSourceTrusted) := by
    rw [IsSmartScreenRequired_value]
    rcases hzone with hz | hz <;> simp [smartScreenRequired, hstate, hz]
  refine ⟨h, fun ha => ?_, fun ha ht => ?_, fun ha ht => ?_⟩
  · rw [h, ha]; rfl
  · rw [h, ha, ht]; rfl
  · rw [h, ha, ht]; rfl

/-- C6, witness: policy NotConfigured, admin setting on, zone Internet, untrusted origin. -/
theorem smart_screen_falls_back_to_admin_setting_witness :
    envAllowListSample.SmartScreenCheck_State = PolicyState.NotConfigured ∧
    (IsSmartScreenRequired envAllowListSample Internet false).value = Except.ok true ∧
    (IsSmartScreenRequired envAllowListSample Internet true).value = Except.ok false :=
  ⟨rfl,
    (smart_screen_falls_back_to_admin_setting envAllowListSample Internet false rfl
      (Or.inl rfl)).2.2.2 rfl rfl,
    (smart_screen_falls_back_to_admin_setting envAllowListSample Internet true rfl
      (Or.inl rfl)).2.2.1 rfl rfl⟩

theorem IsUriBlockedBySmartScreen_trace_block (env : Env) (uri : String)
    (h : (env.ValidateUri uri).Decision = UriValidationDecision.Block) :
    (IsUriBlockedBySmartScreen env uri).trace =
      [Event.call (Call.ValidateUri uri),
        Event.log LogLevel.Verbose
          [LogPart.text "URI '", LogPart.text uri,
            LogPart.text "' was blocked by smart screen. Feedback URL: ",
            LogPart.text (env.ValidateUri uri).Feedback],
        Event.reporterError ResourceString.UriBlockedBySmartScreen] := by
  simp [IsUriBlockedBySmartScreen, enter, AICLI_LOG, Reporter_Error, h]

theorem smartScreenBlocks_trace_required (env : Env) (zone : SecurityZoneOptions) (t : Bool)
    (uri : String) (h : smartScreenRequired env zone t = true) :
    (smartScreenBlocks env zone t uri).trace =
      (IsSmartScreenRequired env zone t).trace ++ (IsUriBlockedBySmartScreen env uri).trace := by
  simp [smartScreenBlocks, IsSmartScreenRequired_value, h]

theorem ExecuteUriValidation_value (env : Env) (source : UriValidationSource)
    (context : Context) (hr : HRESULT)
    (h : (EvaluateUri env context source).value = Except.ok hr) :
    (ExecuteUriValidation env source context).value =
      Except.ok (if FAILED hr then some hr else none) := by
  simp only [ExecuteUriValidation, Flow.bind_value, h, AICLI_TERMINATE_CONTEXT]
  cases FAILED hr <;> simp

/-- C7, counterexample: a configuration URI in zone UntrustedSites for which the service
answers Block with feedback "abc123" passes when the smart-screen policy is Disabled: the
service is not queried and the command is not terminated. When instead the allowed-zones policy
maps UntrustedSites to false, the same URI ends in the blocked-by-policy error, again without a
query. -/
theorem reputation_block_needs_required_check :
    ((sampleContext "https://example.com/config.yml" none).Args_ConfigurationFile =
        some "https://example.com/config.yml" ∧
      (GetUriZone envSmartScreenDisabled "https://example.com/config.yml").value =
        Except.ok (Except.ok UntrustedSites) ∧
      envSmartScreenDisabled.ValidateUri "https://example.com/config.yml" =
        ⟨UriValidationDecision.Block, "abc123"⟩ ∧
      (EvaluateConfigurationUri envSmartScreenDisabled
        (sampleContext "https://example.com/config.yml" none)).value = Except.ok S_OK ∧
      (EvaluateConfigurationUri envSmartScreenDisabled
        (sampleContext "https://example.com/config.yml" none)).value ≠
          Except.ok envSmartScreenDisabled.codes.BLOCKED_BY_REPUTATION_SERVICE ∧
      validateUriCalls (EvaluateConfigurationUri envSmartScreenDisabled
        (sampleContext "https://example.com/config.yml" none)).trace = 0 ∧
      (ExecuteUriValidation envSmartScreenDisabled UriValidationSource.Configuration
        (sampleContext "https://example.com/config.yml" none)).value = Except.ok none) ∧
    ((GetUriZone envUntrustedBlockedByPolicy "https://example.com/config.yml").value =
        Except.ok (Except.ok UntrustedSites) ∧
      envUntrustedBlockedByPolicy.ValidateUri "https://example.com/config.yml" =
        ⟨UriValidationDecision.Block, "abc123"⟩ ∧
      (EvaluateConfigurationUri envUntrustedBlockedByPolicy
        (sampleContext "https://example.com/config.yml" none)).value =
          Except.ok envUntrustedBlockedByPolicy.codes.BLOCKED_BY_POLICY ∧
      (EvaluateConfigurationUri envUntrustedBlockedByPolicy
        (sampleContext "https://example.com/config.yml" none)).value ≠
          Except.ok envUntrustedBlockedByPolicy.codes.BLOCKED_BY_REPUTATION_SERVICE ∧
      validateUriCalls (EvaluateConfigurationUri envUntrustedBlockedByPolicy
        (sampleContext "https://example.com/config.yml" none)).trace = 0) := by
  have hpass : (EvaluateConfigurationUri envSmartScreenDisabled
      (sampleContext "https://example.com/config.yml" none)).value = Except.ok S_OK := by rfl
  have hpolicy : (EvaluateConfigurationUri envUntrustedBlockedByPolicy
      (sampleContext "https://example.com/config.yml" none)).value =
        Except.ok envUntrustedBlockedByPolicy.codes.BLOCKED_BY_POLICY := by rfl
  refine ⟨⟨rfl, by rfl, rfl, hpass, ?_, by rfl, by rfl⟩, ⟨by rfl, rfl, hpolicy, ?_, by rfl⟩⟩
  · rw [hpass]
    intro h
    exact absurd (Except.ok.inj h) (by decide)
  · rw [hpolicy]
    intro h
    exact absurd (Except.ok.inj h) (by decide)

/-- C7, amended: in the Configuration use case, for every configuration URI that resolves to
zone UntrustedSites and for which the reputation service returns Block with feedback "abc123",
provided the policy gate does not block UntrustedSites and `IsSmartScreenRequired` holds for
UntrustedSites with an untrusted origin, the outcome of `EvaluateConfigurationUri` is the
blocked-by-reputation-service code, the feedback reference "abc123" is written to the log line
of the block, the service was queried once, and `ExecuteUriValidation` terminates the command
with that code. -/
theorem reputation_block_terminates_configuration (env : Env) (context : Context)
    (uri : String)
    (huri : context.Args_ConfigurationFile = some uri)
    (hzone : (GetUriZone env uri).value = Except.ok (Except.ok UntrustedSites))
    (hverdict : env.ValidateUri uri = ⟨UriValidationDecision.Block, "abc123"⟩)
    (hgate : (IsZoneBlockedByGroupPolicy env UntrustedSites).value = Except.ok false)
    (hrequired : (IsSmartScreenRequired env UntrustedSites false).value = Except.ok true) :
    (EvaluateConfigurationUri env context).value =
      Except.ok env.codes.BLOCKED_BY_REPUTATION_SERVICE ∧
    Event.log LogLevel.Verbose
      [LogPart.text "URI '", LogPart.text uri,
        LogPart.text "' was blocked by smart screen. Feedback URL: ", LogPart.text "abc123"] ∈
      (EvaluateConfigurationUri env context).trace ∧
    validateUriCalls (EvaluateConfigurationUri env context).trace = 1 ∧
    (ExecuteUriValidation env UriValidationSource.Configuration context).value =
      Except.ok (some env.codes.BLOCKED_BY_REPUTATION_SERVICE) := by
  have hb : zoneBlocked env UntrustedSites = false := by
    rw [IsZoneBlockedByGroupPolicy_value] at hgate
    simpa using hgate
  have hr : smartScreenRequired env UntrustedSites false = true := by
    rw [IsSmartScreenRequired_value] at hrequired
    simpa using hrequired
  have hd : (env.ValidateUri uri).Decision = UriValidationDecision.Block := by rw [hverdict]
  have hrep : reputationBlocks env UntrustedSites false uri = true := by
    simp [reputationBlocks, hr, hd]
  obtain ⟨hv, ht⟩ := EvaluateConfigurationUri_resolved env context uri UntrustedSites huri hzone
  have hvalue : (EvaluateConfigurationUri env context).value =
      Except.ok env.codes.BLOCKED_BY_REPUTATION_SERVICE := by
    simp [hv, hb, hrep]
  refine ⟨hvalue, ?_, ?_, ?_⟩
  · rw [ht]
    simp [hb, hrep, smartScreenBlocks_trace_required _ _ _ _ hr,
      IsUriBlockedBySmartScreen_trace_block _ _ hd, hverdict]
  · rw [ht]
    simp [hb, hrep, GetUriZone_validateUriCalls, IsZoneBlockedByGroupPolicy_validateUriCalls,
      smartScreenBlocks_validateUriCalls, hr, Event.isValidateUri]
  · rw [ExecuteUriValidation_value env _ context _ (by simpa [EvaluateUri] using hvalue)]
    simp [env.codes.reputation_failed]

/-- C7, amended, witness: every URI is in zone UntrustedSites, no zone is restricted by policy,
the smart-screen policy is not configured and the admin setting is on. -/
theorem reputation_block_terminates_configuration_witness :
    (GetUriZone envReputationBlocks "https://example.com/config.yml").value =
      Except.ok (Except.ok UntrustedSites) ∧
    (IsZoneBlockedByGroupPolicy envReputationBlocks UntrustedSites).value = Except.ok false ∧
    (IsSmartScreenRequired envReputationBlocks UntrustedSites false).value = Except.ok true ∧
    (EvaluateConfigurationUri envReputationBlocks
      (sampleContext "https://example.com/config.yml" none)).value =
        Except.ok sampleCodes.BLOCKED_BY_REPUTATION_SERVICE ∧
    (ExecuteUriValidation envReputationBlocks UriValidationSource.Configuration
      (sampleContext "https://example.com/config.yml" none)).value =
        Except.ok (some sampleCodes.BLOCKED_BY_REPUTATION_SERVICE) :=
  ⟨by rfl, by rfl, by rfl,
    (reputation_block_terminates_configuration envReputationBlocks
      (sampleContext "https://example.com/config.yml" none) "https://example.com/config.yml"
      rfl (by rfl) rfl (by rfl) (by rfl)).1,
    (reputation_block_terminates_configuration envReputationBlocks
      (sampleContext "https://example.com/config.yml" none) "https://example.com/config.yml"
      rfl (by rfl) rfl (by rfl) (by rfl)).2.2.2⟩

/-- C8, counterexample: a download from zone Internet with a Trusted source, smart-screen
policy not configured, admin setting on and an Allow verdict is blocked by policy when the
allowed-zones policy maps Internet to false. -/
theorem trusted_download_needs_open_policy_gate :
    (sampleContext "https://example.com/setup.exe" (some 1)).Data_Installer_Url =
      some "https://example.com/setup.exe" ∧
    (GetUriZone envTrustedDownloadBlockedByPolicy "https://example.com/setup.exe").value =
      Except.ok (Except.ok Internet) ∧
    GetIsSourceTrusted (sampleContext "https://example.com/setup.exe" (some 1)) =
      Except.ok true ∧
    envTrustedDownloadBlockedByPolicy.SmartScreenCheck_State = PolicyState.NotConfigured ∧
    envTrustedDownloadBlockedByPolicy.SmartScreenCheck_AdminSetting = true ∧
    (envTrustedDownloadBlockedByPolicy.ValidateUri "https://example.com/setup.exe").Decision =
      UriValidationDecision.Allow ∧
    (EvaluateDownloadUri envTrustedDownloadBlockedByPolicy
      (sampleContext "https://example.com/setup.exe" (some 1))).value =
        Except.ok envTrustedDownloadBlockedByPolicy.codes.BLOCKED_BY_POLICY ∧
    (EvaluateDownloadUri envTrustedDownloadBlockedByPolicy
      (sampleContext "https://example.com/setup.exe" (some 1))).value ≠ Except.ok S_OK := by
  have hvalue : (EvaluateDownloadUri envTrustedDownloadBlockedByPolicy
      (sampleContext "https://example.com/setup.exe" (some 1))).value =
        Except.ok envTrustedDownloadBlockedByPolicy.codes.BLOCKED_BY_POLICY := by rfl
  refine ⟨rfl, by rfl, by rfl, rfl, rfl, rfl, hvalue, ?_⟩
  rw [hvalue]
  intro h
  exact absurd (Except.ok.inj h) (by decide)

/-- C8, amended: in the PackageDownload use case, for every installer URL that resolves to zone
Internet, with the package source flagged Trusted, smart-screen policy NotConfigured, admin
smart-screen setting on and a reputation service that returns Allow, provided the policy gate
does not block zone Internet, the outcome of `EvaluateDownloadUri` is Pass (`S_OK`). -/
theorem trusted_download_passes (env : Env) (context : Context) (uri : String)
    (trustLevel : Nat)
    (huri : context.Data_Installer_Url = some uri)
    (hzone : (GetUriZone env uri).value = Except.ok (Except.ok Internet))
    (hsource : context.Data_PackageVersion_TrustLevel = some trustLevel)
    (htrusted : WI_IsFlagSet trustLevel SourceTrustLevel_Trusted = true)
    (hstate : env.SmartScreenCheck_State = PolicyState.NotConfigured)
    (_hadmin : env.SmartScreenCheck_AdminSetting = true)
    (_hverdict : (env.ValidateUri uri).Decision = UriValidationDecision.Allow)
    (hgate : (IsZoneBlockedByGroupPolicy env Internet).value = Except.ok false) :
    (EvaluateDownloadUri env context).value = Except.ok S_OK := by
  have hb : zoneBlocked env Internet = false := by
    rw [IsZoneBlockedByGroupPolicy_value] at hgate
    simpa using hgate
  have hrep : reputationBlocks env Internet true uri = false := by
    simp [reputationBlocks, smartScreenRequired, hstate]
  rw [(EvaluateDownloadUri_resolved env context uri Internet huri hzone).1]
  simp [hb, hsource, htrusted, hrep]

/-- C8, amended, witness: the allowed-zones policy is Enabled with an allow-list that has no
entry for Internet, so the gate is open for the download. -/
theorem trusted_download_passes_witness :
    (GetUriZone envAllowListOpen "https://example.com/setup.exe").value =
      Except.ok (Except.ok Internet) ∧
    WI_IsFlagSet 1 SourceTrustLevel_Trusted = true ∧
    (IsZoneBlockedByGroupPolicy envAllowListOpen Internet).value = Except.ok false ∧
    (EvaluateDownloadUri envAllowListOpen
      (sampleContext "https://example.com/setup.exe" (some 1))).value = Except.ok S_OK :=
  ⟨by rfl, by rfl, by rfl,
    trusted_download_passes envAllowListOpen
      (sampleContext "https://example.com/setup.exe" (some 1)) "https://example.com/setup.exe" 1
      rfl (by rfl) rfl (by rfl) rfl rfl rfl (by rfl)⟩

/-- C9, counterexample: with the test hooks compiled in, a URI that carries the marker
`/zone0/` resolves to LocalMachine although the OS mapping succeeds for it with the raw
identifier 7, above the ordinal of UntrustedSites; the OS mapping is not even called. -/
theorem zone_marker_overrides_os_mapping :
    FAILED (envHooksRawSeven.MapUrlToZone "https://example.com/zone0/index").1 = false ∧
    UntrustedSites.toDWORD < (envHooksRawSeven.MapUrlToZone "https://example.com/zone0/index").2 ∧
    (GetUriZone envHooksRawSeven "https://example.com/zone0/index").value =
      Except.ok (Except.ok LocalMachine) ∧
    (GetUriZone envHooksRawSeven "https://example.com/zone0/index").value ≠
      Except.ok (Except.ok UntrustedSites) ∧
    (GetUriZone envHooksRawSeven "https://example.com/zone0/index").trace =
      [Event.call (Call.GetUriZone "https://example.com/zone0/index")] := by
  have hvalue : (GetUriZone envHooksRawSeven "https://example.com/zone0/index").value =
      Except.ok (Except.ok LocalMachine) := by rfl
  refine ⟨by rfl, by decide, hvalue, ?_, by rfl⟩
  rw [hvalue]
  intro h
  exact absurd (Except.ok.inj (Except.ok.inj h)) (by decide)

/-- C9, amended: for every URI on which the test hook does not fire (the hooks are compiled
out, or the URI holds no match of `/zone<digits>/`), when the OS zone mapping succeeds with a
raw zone identifier strictly greater than the ordinal of UntrustedSites, `GetUriZone` succeeds
and yields UntrustedSites; when the raw identifier is at most that ordinal, `GetUriZone`
succeeds and yields the zone with exactly that ordinal. -/
theorem zone_above_untrusted_is_clamped (env : Env) (uri : String)
    (hhook : env.testHooks = false ∨ regex_search_zone uri.toList = none)
    (hmapped : FAILED (env.MapUrlToZone uri).1 = false) :
    (UntrustedSites.toDWORD < (env.MapUrlToZone uri).2 →
      (GetUriZone env uri).value = Except.ok (Except.ok UntrustedSites)) ∧
    ((env.MapUrlToZone uri).2 ≤ UntrustedSites.toDWORD →
      (GetUriZone env uri).value =
        Except.ok (Except.ok (SecurityZoneOptions.mk ((env.MapUrlToZone uri).2 : Int)))) := by
  rw [GetUriZone_mapped env uri hhook, toDWORD_UntrustedSites]
  refine ⟨fun h => ?_, fun h => ?_⟩
  · simp [hmapped, h]
  · simp [hmapped, Nat.not_lt.mpr h]

/-- C9, amended, witness: the hooks are compiled in, the URI holds no marker and the OS maps it
to the raw identifier 7. -/
theorem zone_above_untrusted_is_clamped_witness :
    regex_search_zone "https://example.com/index".toList = none ∧
    FAILED (envHooksRawSeven.MapUrlToZone "https://example.com/index").1 = false ∧
    UntrustedSites.toDWORD < (envHooksRawSeven.MapUrlToZone "https://example.com/index").2 ∧
    (GetUriZone envHooksRawSeven "https://example.com/index").value =
      Except.ok (Except.ok UntrustedSites) :=
  ⟨by rfl, by rfl, by decide,
    (zone_above_untrusted_is_clamped envHooksRawSeven "https://example.com/index"
      (Or.inr (by rfl)) (by rfl)).1 (by decide)⟩

/-- C10: for each of the three use cases, if the URI is present but `GetUriZone` fails, the
outcome is Pass (`S_OK`): the failing HRESULT of the zone mapping is not propagated, and neither
the policy gate, nor the reputation-requirement decision, nor the reputation service is called,
whatever the policy states are. -/
theorem failed_zone_resolution_passes (env : Env) (context : Context) (uri : String)
    (hr : HRESULT) (hzone : (GetUriZone env uri).value = Except.ok (Except.error hr)) :
    FAILED hr = true ∧ FAILED S_OK = false ∧
    (context.Args_ConfigurationFile = some uri →
      (EvaluateConfigurationUri env context).value = Except.ok S_OK ∧
      policyGateCalls (EvaluateConfigurationUri env context).trace = 0 ∧
      smartScreenRequiredCalls (EvaluateConfigurationUri env context).trace = 0 ∧
      validateUriCalls (EvaluateConfigurationUri env context).trace = 0) ∧
    (context.Data_Installer_Url = some uri →
      (EvaluateDownloadUri env context).value = Except.ok S_OK ∧
      policyGateCalls (EvaluateDownloadUri env context).trace = 0 ∧
      smartScreenRequiredCalls (EvaluateDownloadUri env context).trace = 0 ∧
      validateUriCalls (EvaluateDownloadUri env context).trace = 0) ∧
    (context.Data_Source_Arg = some uri →
      (EvaluateSourceAddUri env context).value = Except.ok S_OK ∧
      policyGateCalls (EvaluateSourceAddUri env context).trace = 0 ∧
      smartScreenRequiredCalls (EvaluateSourceAddUri env context).trace = 0 ∧
      validateUriCalls (EvaluateSourceAddUri env context).trace = 0) := by
  refine ⟨(GetUriZone_error env uri hr hzone).2, by decide, fun huri => ?_, fun huri => ?_,
    fun huri => ?_⟩
  · obtain ⟨hv, ht⟩ := EvaluateConfigurationUri_failed_zone env context uri hr huri hzone
    simp [hv, ht, GetUriZone_policyGateCalls, GetUriZone_smartScreenRequiredCalls,
      GetUriZone_validateUriCalls, Event.isPolicyGate, Event.isSmartScreenRequired,
      Event.isValidateUri]
  · obtain ⟨hv, ht⟩ := EvaluateDownloadUri_failed_zone env context uri hr huri hzone
    simp [hv, ht, GetUriZone_policyGateCalls, GetUriZone_smartScreenRequiredCalls,
      GetUriZone_validateUriCalls, Event.isPolicyGate, Event.isSmartScreenRequired,
      Event.isValidateUri]
  · obtain ⟨hv, ht⟩ := EvaluateSourceAddUri_failed_zone env context uri hr huri hzone
    simp [hv, ht, GetUriZone_policyGateCalls, GetUriZone_smartScreenRequiredCalls,
      GetUriZone_validateUriCalls, Event.isPolicyGate, Event.isSmartScreenRequired,
      Event.isValidateUri]

/-- C10, witness: the OS mapping fails with `E_FAIL` while the allow-list maps every zone to
false, the smart-screen policy is Enabled and the service would answer Block; all three use
cases pass. -/
theorem failed_zone_resolution_passes_witness :
    (GetUriZone envZoneMappingFails "https://example.com/index").value =
      Except.ok (Except.error E_FAIL) ∧
    (IsZoneBlockedByGroupPolicy envZoneMappingFails Internet).value = Except.ok true ∧
    (EvaluateConfigurationUri envZoneMappingFails
      (sampleContext "https://example.com/index" (some 0))).value = Except.ok S_OK ∧
    (EvaluateDownloadUri envZoneMappingFails
      (sampleContext "https://example.com/index" (some 0))).value = Except.ok S_OK ∧
    (EvaluateSourceAddUri envZoneMappingFails
      (sampleContext "https://example.com/index" (some 0))).value = Except.ok S_OK :=
  ⟨by rfl, by rfl,
    ((failed_zone_resolution_passes envZoneMappingFails
      (sampleContext "https://example.com/index" (some 0)) "https://example.com/index" E_FAIL
      (by rfl)).2.2.1 rfl).1,
    ((failed_zone_resolution_passes envZoneMappingFails
      (sampleContext "https://example.com/index" (some 0)) "https://example.com/index" E_FAIL
      (by rfl)).2.2.2.1 rfl).1,
    ((failed_zone_resolution_passes envZoneMappingFails
      (sampleContext "https://example.com/index" (some 0)) "https://example.com/index" E_FAIL
      (by rfl)).2.2.2.2 rfl).1⟩

/-! ## Calls and reporter output of the parts -/

@[simp] theorem calls_nil : calls [] = [] := rfl

@[simp] theorem calls_append (s t : List Event) : calls (s ++ t) = calls s ++ calls t := by
  simp [calls, List.filterMap_append]

@[simp] theorem calls_cons_call (c : Call) (t : List Event) :
    calls (Event.call c :: t) = c :: calls t := by
  simp [calls, List.filterMap_cons]

@[simp] theorem calls_cons_log (level : LogLevel) (parts : List LogPart) (t : List Event) :
    calls (Event.log level parts :: t) = calls t := by
  simp [calls, List.filterMap_cons]

@[simp] theorem calls_cons_reporter (message : ResourceString) (t : List Event) :
    calls (Event.reporterError message :: t) = calls t := by
  simp [calls, List.filterMap_cons]

@[simp] theorem reporterMessages_nil : reporterMessages [] = [] := rfl

@[simp] theorem reporterMessages_append (s t : List Event) :
    reporterMessages (s ++ t) = reporterMessages s ++ reporterMessages t := by
  simp [reporterMessages, List.filterMap_append]

@[simp] theorem reporterMessages_cons_call (c : Call) (t : List Event) :
    reporterMessages (Event.call c :: t) = reporterMessages t := by
  simp [reporterMessages, List.filterMap_cons]

@[simp] theorem reporterMessages_cons_log (level : LogLevel) (parts : List LogPart)
    (t : List Event) : reporterMessages (Event.log level parts :: t) = reporterMessages t := by
  simp [reporterMessages, List.filterMap_cons]

@[simp] theorem reporterMessages_cons_reporter (message : ResourceString) (t : List Event) :
    reporterMessages (Event.reporterError message :: t) = message :: reporterMessages t := by
  simp [reporterMessages, List.filterMap_cons]

theorem GetUriZone_reporterMessages (env : Env) (uri : String) :
    reporterMessages (GetUriZone env uri).trace = [] := by
  simp only [GetUriZone, enter]
  split
  · simp [stoul_trace]; split <;> simp
  · simp
    split
    · simp
    · split <;> simp

theorem IsZoneBlockedByGroupPolicy_calls (env : Env) (zone : SecurityZoneOptions) :
    calls (IsZoneBlockedByGroupPolicy env zone).trace = [Call.IsZoneBlockedByGroupPolicy zone] ∧
    reporterMessages (IsZoneBlockedByGroupPolicy env zone).trace =
      if zoneBlocked env zone then [ResourceString.UriSecurityZoneBlockedByPolicy] else [] := by
  rcases Bool.eq_false_or_eq_true (GroupPolicies_IsEnabled env.AllowedSecurityZones_State)
    with h1 | h1
  · cases h2 : env.AllowedSecurityZones_Value with
    | none =>
      simp [IsZoneBlockedByGroupPolicy, zoneBlocked, enter, AICLI_LOG, Reporter_Error, h1, h2]
    | some m =>
      cases h3 : m zone with
      | none =>
        simp [IsZoneBlockedByGroupPolicy, zoneBlocked, enter, AICLI_LOG, Reporter_Error, h1, h2,
          h3]
      | some b =>
        cases b <;>
          simp [IsZoneBlockedByGroupPolicy, zoneBlocked, enter, AICLI_LOG, Reporter_Error, h1,
            h2, h3]
  · simp [IsZoneBlockedByGroupPolicy, zoneBlocked, enter, AICLI_LOG, Reporter_Error, h1]

theorem IsSmartScreenRequired_calls (env : Env) (zone : SecurityZoneOptions) (t : Bool) :
    calls (IsSmartScreenRequired env zone t).trace = [Call.IsSmartScreenRequired zone t] ∧
    reporterMessages (IsSmartScreenRequired env zone t).trace = [] := by
  simp only [IsSmartScreenRequired, enter, AICLI_LOG]
  by_cases h1 : zone = Internet <;> by_cases h2 : zone = UntrustedSites <;>
    cases h3 : env.SmartScreenCheck_State <;> cases h4 : env.SmartScreenCheck_AdminSetting <;>
    cases t <;> simp [h1, h2, h3, h4]

theorem IsUriBlockedBySmartScreen_calls (env : Env) (uri : String) :
    calls (IsUriBlockedBySmartScreen env uri).trace = [Call.ValidateUri uri] ∧
    reporterMessages (IsUriBlockedBySmartScreen env uri).trace =
      if (env.ValidateUri uri).Decision = UriValidationDecision.Block
      then [ResourceString.UriBlockedBySmartScreen] else [] := by
  simp only [IsUriBlockedBySmartScreen, enter, AICLI_LOG, Reporter_Error]
  cases h : (env.ValidateUri uri).Decision <;> simp [h]

theorem smartScreenBlocks_calls (env : Env) (zone : SecurityZoneOptions) (t : Bool)
    (uri : String) :
    calls (smartScreenBlocks env zone t uri).trace =
      (if smartScreenRequired env zone t
        then [Call.IsSmartScreenRequired zone t, Call.ValidateUri uri]
        else [Call.IsSmartScreenRequired zone t]) ∧
    reporterMessages (smartScreenBlocks env zone t uri).trace =
      if reputationBlocks env zone t uri then [ResourceString.UriBlockedBySmartScreen]
      else [] := by
  simp only [smartScreenBlocks, Flow.bind_trace, IsSmartScreenRequired_value, reputationBlocks]
  rcases Bool.eq_false_or_eq_true (smartScreenRequired env zone t) with h | h <;>
    simp [h, IsSmartScreenRequired_calls, IsUriBlockedBySmartScreen_calls]

/-! ## The evaluators, observed -/

theorem EvaluateConfigurationUri_observed (env : Env) (context : Context) :
    observe (EvaluateConfigurationUri env context) =
      expectedEvaluation env context.Args_ConfigurationFile (some false) := by
  cases huri : context.Args_ConfigurationFile with
  | none =>
    simp [observe, expectedEvaluation, EvaluateConfigurationUri, GetConfigurationUri, huri,
      AICLI_LOG]
  | some uri =>
    cases hz : (GetUriZone env uri).value with
    | error e =>
      simp [observe, expectedEvaluation, EvaluateConfigurationUri, GetConfigurationUri, huri, hz,
        GetUriZone_reporterMessages]
    | ok r =>
      cases r with
      | error hr =>
        obtain ⟨hv, ht⟩ := EvaluateConfigurationUri_failed_zone env context uri hr huri hz
        simp [observe, expectedEvaluation, hz, hv, ht, GetUriZone_reporterMessages]
      | ok zone =>
        obtain ⟨hv, ht⟩ := EvaluateConfigurationUri_resolved env context uri zone huri hz
        rcases Bool.eq_false_or_eq_true (zoneBlocked env zone) with hb | hb
        · simp [observe, expectedEvaluation, hz, hv, ht, hb, GetUriZone_reporterMessages,
            IsZoneBlockedByGroupPolicy_calls]
        · rcases Bool.eq_false_or_eq_true (smartScreenRequired env zone false) with hr | hr
          · by_cases hd : (env.ValidateUri uri).Decision = UriValidationDecision.Block
            · simp [observe, expectedEvaluation, hz, hv, ht, hb, hr, hd, reputationBlocks,
                GetUriZone_reporterMessages, IsZoneBlockedByGroupPolicy_calls,
                smartScreenBlocks_calls]
            · simp [observe, expectedEvaluation, hz, hv, ht, hb, hr, hd, reputationBlocks,
                GetUriZone_reporterMessages, IsZoneBlockedByGroupPolicy_calls,
                smartScreenBlocks_calls]
          · simp [observe, expectedEvaluation, hz, hv, ht, hb, hr, reputationBlocks,
              GetUriZone_reporterMessages, IsZoneBlockedByGroupPolicy_calls,
              smartScreenBlocks_calls]

theorem EvaluateSourceAddUri_observed (env : Env) (context : Context) :
    observe (EvaluateSourceAddUri env context) =
      expectedEvaluation env context.Data_Source_Arg (some false) := by
  cases huri : context.Data_Source_Arg with
  | none =>
    simp [observe, expectedEvaluation, EvaluateSourceAddUri, GetSourceAddUrl, huri,
      AICLI_LOG]
  | some uri =>
    cases hz : (GetUriZone env uri).value with
    | error e =>
      simp [observe, expectedEvaluation, EvaluateSourceAddUri, GetSourceAddUrl, huri, hz,
        GetUriZone_reporterMessages]
    | ok r =>
      cases r with
      | error hr =>
        obtain ⟨hv, ht⟩ := EvaluateSourceAddUri_failed_zone env context uri hr huri hz
        simp [observe, expectedEvaluation, hz, hv, ht, GetUriZone_reporterMessages]
      | ok zone =>
        obtain ⟨hv, ht⟩ := EvaluateSourceAddUri_resolved env context uri zone huri hz
        rcases Bool.eq_false_or_eq_true (zoneBlocked env zone) with hb | hb
        · simp [observe, expectedEvaluation, hz, hv, ht, hb, GetUriZone_reporterMessages,
            IsZoneBlockedByGroupPolicy_calls]
        · rcases Bool.eq_false_or_eq_true (smartScreenRequired env zone false) with hr | hr
          · by_cases hd : (env.ValidateUri uri).Decision = UriValidationDecision.Block
            · simp [observe, expectedEvaluation, hz, hv, ht, hb, hr, hd, reputationBlocks,
                GetUriZone_reporterMessages, IsZoneBlockedByGroupPolicy_calls,
                smartScreenBlocks_calls]
            · simp [observe, expectedEvaluation, hz, hv, ht, hb, hr, hd, reputationBlocks,
                GetUriZone_reporterMessages, IsZoneBlockedByGroupPolicy_calls,
                smartScreenBlocks_calls]
          · simp [observe, expectedEvaluation, hz, hv, ht, hb, hr, reputationBlocks,
              GetUriZone_reporterMessages, IsZoneBlockedByGroupPolicy_calls,
              smartScreenBlocks_calls]

theorem EvaluateDownloadUri_observed (env : Env) (context : Context) :
    observe (EvaluateDownloadUri env context) =
      expectedEvaluation env context.Data_Installer_Url
        (context.Data_PackageVersion_TrustLevel.map
          fun trustLevel => WI_IsFlagSet trustLevel SourceTrustLevel_Trusted) := by
  cases huri : context.Data_Installer_Url with
  | none =>
    simp [observe, expectedEvaluation, EvaluateDownloadUri, GetInstallerUrl, huri, AICLI_LOG]
  | some uri =>
    cases hz : (GetUriZone env uri).value with
    | error e =>
      simp [observe, expectedEvaluation, EvaluateDownloadUri, GetInstallerUrl, huri, hz,
        GetUriZone_reporterMessages]
    | ok r =>
      cases r with
      | error hr =>
        obtain ⟨hv, ht⟩ := EvaluateDownloadUri_failed_zone env context uri hr huri hz
        simp [observe, expectedEvaluation, hz, hv, ht, GetUriZone_reporterMessages]
      | ok zone =>
        obtain ⟨hv, ht⟩ := EvaluateDownloadUri_resolved env context uri zone huri hz
        rcases Bool.eq_false_or_eq_true (zoneBlocked env zone) with hb | hb
        · simp [observe, expectedEvaluation, hz, hv, ht, hb, GetUriZone_reporterMessages,
            IsZoneBlockedByGroupPolicy_calls]
        · cases hl : context.Data_PackageVersion_TrustLevel with
          | none =>
            simp [observe, expectedEvaluation, hz, hv, ht, hb, hl, GetUriZone_reporterMessages,
              IsZoneBlockedByGroupPolicy_calls]
          | some trustLevel =>
            rcases Bool.eq_false_or_eq_true
              (smartScreenRequired env zone (WI_IsFlagSet trustLevel SourceTrustLevel_Trusted))
              with hr | hr
            · by_cases hd : (env.ValidateUri uri).Decision = UriValidationDecision.Block
              · simp [observe, expectedEvaluation, hz, hv, ht, hb, hl, hr, hd, reputationBlocks,
                  GetUriZone_reporterMessages, IsZoneBlockedByGroupPolicy_calls,
                  smartScreenBlocks_calls]
              · simp [observe, expectedEvaluation, hz, hv, ht, hb, hl, hr, hd, reputationBlocks,
                  GetUriZone_reporterMessages, IsZoneBlockedByGroupPolicy_calls,
                  smartScreenBlocks_calls]
            · simp [observe, expectedEvaluation, hz, hv, ht, hb, hl, hr, reputationBlocks,
                GetUriZone_reporterMessages, IsZoneBlockedByGroupPolicy_calls,
                smartScreenBlocks_calls]

/-! ## Counting through the calls -/

theorem countP_eq_countP_calls (p : Event → Bool)
    (hlog : ∀ level parts, p (Event.log level parts) = false)
    (hreporter : ∀ message, p (Event.reporterError message) = false) (t : List Event) :
    t.countP p = (calls t).countP fun c => p (Event.call c) := by
  induction t with
  | nil => rfl
  | cons e t ih =>
    cases e with
    | log level parts => simp [List.countP_cons, hlog, ih]
    | reporterError message => simp [List.countP_cons, hreporter, ih]
    | call c => simp [List.countP_cons, ih]

theorem validateUriCalls_eq_calls (t : List Event) :
    validateUriCalls t = (calls t).countP fun c => Event.isValidateUri (Event.call c) :=
  countP_eq_countP_calls _ (fun _ _ => rfl) (fun _ => rfl) t

theorem policyGateCalls_eq_calls (t : List Event) :
    policyGateCalls t = (calls t).countP fun c => Event.isPolicyGate (Event.call c) :=
  countP_eq_countP_calls _ (fun _ _ => rfl) (fun _ => rfl) t

theorem smartScreenRequiredCalls_eq_calls (t : List Event) :
    smartScreenRequiredCalls t =
      (calls t).countP fun c => Event.isSmartScreenRequired (Event.call c) :=
  countP_eq_countP_calls _ (fun _ _ => rfl) (fun _ => rfl) t

theorem zoneResolutionCalls_eq_calls (t : List Event) :
    zoneResolutionCalls t = (calls t).countP fun c => Event.isZoneResolution (Event.call c) :=
  countP_eq_countP_calls _ (fun _ _ => rfl) (fun _ => rfl) t

theorem GetUriZone_calls (env : Env) (uri : String) :
    calls (GetUriZone env uri).trace =
      if hookFires env uri then [Call.GetUriZone uri]
      else [Call.GetUriZone uri, Call.MapUrlToZone uri] := by
  unfold hookFires
  cases hh : env.testHooks
  · simp only [GetUriZone, enter, hh]
    simp
    split
    · simp
    · split <;> simp
  · cases hm : regex_search_zone uri.toList with
    | none =>
      simp only [GetUriZone, enter, hh, hm]
      simp
      split
      · simp
      · split <;> simp
    | some number =>
      simp only [GetUriZone, enter, hh, hm]
      simp [stoul_trace]
      split <;> simp

theorem GetUriZone_calls_validateUri (env : Env) (uri : String) :
    (calls (GetUriZone env uri).trace).countP (fun c => Event.isValidateUri (Event.call c)) = 0 ∧
    (calls (GetUriZone env uri).trace).countP (fun c => Event.isPolicyGate (Event.call c)) = 0 ∧
    (calls (GetUriZone env uri).trace).countP
      (fun c => Event.isSmartScreenRequired (Event.call c)) = 0 := by
  rw [GetUriZone_calls]
  split <;> simp [Event.isValidateUri, Event.isPolicyGate, Event.isSmartScreenRequired]

theorem observe_value (m : Flow HRESULT) : (observe m).value = m.value := rfl

theorem observe_calls (m : Flow HRESULT) : (observe m).calls = calls m.trace := rfl

theorem observe_reporter (m : Flow HRESULT) :
    (observe m).reporter = reporterMessages m.trace := rfl

theorem EvaluateUri_observed (env : Env) (context : Context) (source : UriValidationSource)
    (hsource : source.isUseCase = true) :
    observe (EvaluateUri env context source) =
      expectedEvaluation env (useCaseUri context source) (originTrust context source) := by
  cases source with
  | Configuration => exact EvaluateConfigurationUri_observed env context
  | Package => exact EvaluateDownloadUri_observed env context
  | SourceAdd => exact EvaluateSourceAddUri_observed env context
  | Unrecognized raw => simp [UriValidationSource.isUseCase] at hsource

/-- An evaluation ends in an exception or in one of the three outcomes. -/
theorem expectedEvaluation_value_cases (env : Env) (uri : Option String) (trust : Option Bool) :
    (∃ e, (expectedEvaluation env uri trust).value = Except.error e) ∨
    (expectedEvaluation env uri trust).value = Except.ok S_OK ∨
    (expectedEvaluation env uri trust).value = Except.ok env.codes.BLOCKED_BY_POLICY ∨
    (expectedEvaluation env uri trust).value =
      Except.ok env.codes.BLOCKED_BY_REPUTATION_SERVICE := by
  unfold expectedEvaluation
  repeat' split
  all_goals simp

theorem codes_ne (codes : ErrorCodes) :
    codes.BLOCKED_BY_POLICY ≠ S_OK ∧ codes.BLOCKED_BY_REPUTATION_SERVICE ≠ S_OK ∧
    codes.BLOCKED_BY_POLICY ≠ codes.BLOCKED_BY_REPUTATION_SERVICE := by
  have h1 := codes.policy_failed
  have h2 := codes.reputation_failed
  refine ⟨fun h => ?_, fun h => ?_, codes.distinct⟩
  · rw [h] at h1
    exact absurd h1 (by decide)
  · rw [h] at h2
    exact absurd h2 (by decide)

/-! ## Claims, continued -/

/-- C11: for each of the three use cases, if the use-case-specific URI is absent from the
context (no ConfigurationFile argument, no Installer data, no Source data), the outcome is Pass
(`S_OK`) and neither zone resolution, nor the policy gate, nor the reputation-requirement
decision, nor the reputation service is invoked: the evaluation makes no call at all. -/
theorem absent_uri_passes (env : Env) (context : Context) :
    (context.Args_ConfigurationFile = none →
      (EvaluateConfigurationUri env context).value = Except.ok S_OK ∧
      calls (EvaluateConfigurationUri env context).trace = [] ∧
      zoneResolutionCalls (EvaluateConfigurationUri env context).trace = 0 ∧
      policyGateCalls (EvaluateConfigurationUri env context).trace = 0 ∧
      validateUriCalls (EvaluateConfigurationUri env context).trace = 0) ∧
    (context.Data_Installer_Url = none →
      (EvaluateDownloadUri env context).value = Except.ok S_OK ∧
      calls (EvaluateDownloadUri env context).trace = [] ∧
      zoneResolutionCalls (EvaluateDownloadUri env context).trace = 0 ∧
      policyGateCalls (EvaluateDownloadUri env context).trace = 0 ∧
      validateUriCalls (EvaluateDownloadUri env context).trace = 0) ∧
    (context.Data_Source_Arg = none →
      (EvaluateSourceAddUri env context).value = Except.ok S_OK ∧
      calls (EvaluateSourceAddUri env context).trace = [] ∧
      zoneResolutionCalls (EvaluateSourceAddUri env context).trace = 0 ∧
      policyGateCalls (EvaluateSourceAddUri env context).trace = 0 ∧
      validateUriCalls (EvaluateSourceAddUri env context).trace = 0) := by
  refine ⟨fun h => ?_, fun h => ?_, fun h => ?_⟩
  · simp [EvaluateConfigurationUri, GetConfigurationUri, h, AICLI_LOG, zoneResolutionCalls,
      Event.isZoneResolution, Event.isPolicyGate, Event.isValidateUri]
  · simp [EvaluateDownloadUri, GetInstallerUrl, h, AICLI_LOG, zoneResolutionCalls,
      Event.isZoneResolution, Event.isPolicyGate, Event.isValidateUri]
  · simp [EvaluateSourceAddUri, GetSourceAddUrl, h, AICLI_LOG, zoneResolutionCalls,
      Event.isZoneResolution, Event.isPolicyGate, Event.isValidateUri]

/-- C11, witness: a context without any URI, under policies that would block every zone. -/
theorem absent_uri_passes_witness :
    (EvaluateConfigurationUri envZoneMappingFails emptyContext).value = Except.ok S_OK ∧
    (EvaluateDownloadUri envZoneMappingFails emptyContext).value = Except.ok S_OK ∧
    (EvaluateSourceAddUri envZoneMappingFails emptyContext).value = Except.ok S_OK ∧
    calls (EvaluateSourceAddUri envZoneMappingFails emptyContext).trace = [] :=
  ⟨((absent_uri_passes envZoneMappingFails emptyContext).1 rfl).1,
    ((absent_uri_passes envZoneMappingFails emptyContext).2.1 rfl).1,
    ((absent_uri_passes envZoneMappingFails emptyContext).2.2 rfl).1,
    ((absent_uri_passes envZoneMappingFails emptyContext).2.2 rfl).2.1⟩

theorem EvaluateUri_value_cases (env : Env) (context : Context) (source : UriValidationSource) :
    (∃ e, (EvaluateUri env context source).value = Except.error e) ∨
    (EvaluateUri env context source).value = Except.ok S_OK ∨
    (EvaluateUri env context source).value = Except.ok env.codes.BLOCKED_BY_POLICY ∨
    (EvaluateUri env context source).value =
      Except.ok env.codes.BLOCKED_BY_REPUTATION_SERVICE := by
  by_cases hsource : source.isUseCase = true
  · have h := congrArg Observation.value (EvaluateUri_observed env context source hsource)
    rw [observe_value] at h
    rw [h]
    exact expectedEvaluation_value_cases env _ _
  · cases source with
    | Unrecognized raw => exact Or.inl ⟨_, rfl⟩
    | Configuration => simp [UriValidationSource.isUseCase] at hsource
    | Package => simp [UriValidationSource.isUseCase] at hsource
    | SourceAdd => simp [UriValidationSource.isUseCase] at hsource

theorem ExecuteUriValidation_raises (env : Env) (source : UriValidationSource)
    (context : Context) (e : Exn)
    (h : (EvaluateUri env context source).value = Except.error e) :
    (ExecuteUriValidation env source context).value = Except.error e := by
  simp [ExecuteUriValidation, h]

/-- C12: in the PackageDownload use case, when the installer URL is present, its zone resolves
and the policy gate does not block, but the context holds no PackageVersion, the outcome is Pass
and neither the reputation-requirement decision nor the reputation service is called, for every
zone, smart-screen policy state and admin setting. Treating the origin as untrusted instead
(a package version whose source has no trust flag) gives another result for zone Internet under
the policy state Enabled: the check is required, the service is queried once, and a Block
verdict ends in the blocked-by-reputation-service error. -/
theorem download_without_source_trust_passes (env : Env) (context : Context) (uri : String)
    (zone : SecurityZoneOptions)
    (huri : context.Data_Installer_Url = some uri)
    (hzone : (GetUriZone env uri).value = Except.ok (Except.ok zone))
    (hgate : (IsZoneBlockedByGroupPolicy env zone).value = Except.ok false)
    (htrust : context.Data_PackageVersion_TrustLevel = none) :
    GetIsSourceTrusted context = Except.error E_FAIL ∧
    (EvaluateDownloadUri env context).value = Except.ok S_OK ∧
    smartScreenRequiredCalls (EvaluateDownloadUri env context).trace = 0 ∧
    validateUriCalls (EvaluateDownloadUri env context).trace = 0 ∧
    (zone = Internet → env.SmartScreenCheck_State = PolicyState.Enabled →
      (IsSmartScreenRequired env zone false).value = Except.ok true ∧
      validateUriCalls (EvaluateDownloadUri env
        ⟨context.Args_ConfigurationFile, context.Data_Installer_Url, context.Data_Source_Arg,
          some 0⟩).trace = 1 ∧
      ((env.ValidateUri uri).Decision = UriValidationDecision.Block →
        (EvaluateDownloadUri env
          ⟨context.Args_ConfigurationFile, context.Data_Installer_Url, context.Data_Source_Arg,
            some 0⟩).value = Except.ok env.codes.BLOCKED_BY_REPUTATION_SERVICE)) := by
  have hb : zoneBlocked env zone = false := by
    rw [IsZoneBlockedByGroupPolicy_value] at hgate
    simpa using hgate
  have hobs := EvaluateDownloadUri_observed env context
  rw [huri, htrust] at hobs
  simp [expectedEvaluation, hzone, hb] at hobs
  have hv := congrArg Observation.value hobs
  have hc := congrArg Observation.calls hobs
  simp only [observe_value, observe_calls] at hv hc
  refine ⟨by simp [GetIsSourceTrusted, htrust], hv, ?_, ?_, ?_⟩
  · rw [smartScreenRequiredCalls_eq_calls, hc, List.countP_append,
      (GetUriZone_calls_validateUri env uri).2.2]
    rfl
  · rw [validateUriCalls_eq_calls, hc, List.countP_append,
      (GetUriZone_calls_validateUri env uri).1]
    rfl
  · intro hz hs
    subst hz
    have hr : smartScreenRequired env Internet false = true := by
      simp [smartScreenRequired, hs]
    have hobs2 := EvaluateDownloadUri_observed env
      ⟨context.Args_ConfigurationFile, context.Data_Installer_Url, context.Data_Source_Arg,
        some 0⟩
    have hflag : WI_IsFlagSet 0 SourceTrustLevel_Trusted = false := by decide
    simp only [huri, Option.map, hflag] at hobs2
    rw [huri]
    refine ⟨by rw [IsSmartScreenRequired_value, hr], ?_, ?_⟩
    · by_cases hd : (env.ValidateUri uri).Decision = UriValidationDecision.Block
      · simp [expectedEvaluation, hzone, hb, hr, hd] at hobs2
        have hc2 := congrArg Observation.calls hobs2
        simp only [observe_calls] at hc2
        rw [validateUriCalls_eq_calls, hc2, List.countP_append,
          (GetUriZone_calls_validateUri env uri).1]
        rfl
      · simp [expectedEvaluation, hzone, hb, hr, hd] at hobs2
        have hc2 := congrArg Observation.calls hobs2
        simp only [observe_calls] at hc2
        rw [validateUriCalls_eq_calls, hc2, List.countP_append,
          (GetUriZone_calls_validateUri env uri).1]
        rfl
    · intro hd
      simp [expectedEvaluation, hzone, hb, hr, hd] at hobs2
      exact congrArg Observation.value hobs2

/-- C12, witness: a download from zone Internet without a package version, with the
smart-screen policy Enabled and a service that would answer Block. -/
theorem download_without_source_trust_passes_witness :
    (GetUriZone envSmartScreenEnabled "https://example.com/setup.exe").value =
      Except.ok (Except.ok Internet) ∧
    (IsZoneBlockedByGroupPolicy envSmartScreenEnabled Internet).value = Except.ok false ∧
    (EvaluateDownloadUri envSmartScreenEnabled
      (sampleContext "https://example.com/setup.exe" none)).value = Except.ok S_OK ∧
    validateUriCalls (EvaluateDownloadUri envSmartScreenEnabled
      (sampleContext "https://example.com/setup.exe" none)).trace = 0 ∧
    (EvaluateDownloadUri envSmartScreenEnabled
      (sampleContext "https://example.com/setup.exe" (some 0))).value =
        Except.ok sampleCodes.BLOCKED_BY_REPUTATION_SERVICE :=
  ⟨by rfl, by rfl,
    (download_without_source_trust_passes envSmartScreenEnabled
      (sampleContext "https://example.com/setup.exe" none) "https://example.com/setup.exe"
      Internet rfl (by rfl) (by rfl) rfl).2.1,
    (download_without_source_trust_passes envSmartScreenEnabled
      (sampleContext "https://example.com/setup.exe" none) "https://example.com/setup.exe"
      Internet rfl (by rfl) (by rfl) rfl).2.2.2.1,
    ((download_without_source_trust_passes envSmartScreenEnabled
      (sampleContext "https://example.com/setup.exe" none) "https://example.com/setup.exe"
      Internet rfl (by rfl) (by rfl) rfl).2.2.2.2 rfl rfl).2.2 rfl⟩

/-- C13: `ExecuteUriValidation` terminates the command if and only if the evaluated outcome is
a block: a Pass outcome never terminates, a policy block terminates with the blocked-by-policy
error code, a reputation block terminates with the blocked-by-reputation-service error code;
every evaluated outcome is one of the three, and the two codes are distinct from each other and
from success. -/
theorem termination_iff_block (env : Env) (context : Context) (source : UriValidationSource) :
    (∀ hr, (EvaluateUri env context source).value = Except.ok hr →
      hr = S_OK ∨ hr = env.codes.BLOCKED_BY_POLICY ∨
        hr = env.codes.BLOCKED_BY_REPUTATION_SERVICE) ∧
    ((EvaluateUri env context source).value = Except.ok S_OK →
      (ExecuteUriValidation env source context).value = Except.ok none) ∧
    ((EvaluateUri env context source).value = Except.ok env.codes.BLOCKED_BY_POLICY →
      (ExecuteUriValidation env source context).value =
        Except.ok (some env.codes.BLOCKED_BY_POLICY)) ∧
    ((EvaluateUri env context source).value =
        Except.ok env.codes.BLOCKED_BY_REPUTATION_SERVICE →
      (ExecuteUriValidation env source context).value =
        Except.ok (some env.codes.BLOCKED_BY_REPUTATION_SERVICE)) ∧
    ((∃ code, (ExecuteUriValidation env source context).value = Except.ok (some code)) ↔
      ((EvaluateUri env context source).value = Except.ok env.codes.BLOCKED_BY_POLICY ∨
        (EvaluateUri env context source).value =
          Except.ok env.codes.BLOCKED_BY_REPUTATION_SERVICE)) ∧
    env.codes.BLOCKED_BY_POLICY ≠ env.codes.BLOCKED_BY_REPUTATION_SERVICE ∧
    env.codes.BLOCKED_BY_POLICY ≠ S_OK ∧
    env.codes.BLOCKED_BY_REPUTATION_SERVICE ≠ S_OK := by
  obtain ⟨hp, hr, hd⟩ := codes_ne env.codes
  have hpass : (EvaluateUri env context source).value = Except.ok S_OK →
      (ExecuteUriValidation env source context).value = Except.ok none := by
    intro h
    rw [ExecuteUriValidation_value env source context S_OK h]
    rfl
  have hpolicy : (EvaluateUri env context source).value =
        Except.ok env.codes.BLOCKED_BY_POLICY →
      (ExecuteUriValidation env source context).value =
        Except.ok (some env.codes.BLOCKED_BY_POLICY) := by
    intro h
    rw [ExecuteUriValidation_value env source context _ h, env.codes.policy_failed]
    rfl
  have hrep : (EvaluateUri env context source).value =
        Except.ok env.codes.BLOCKED_BY_REPUTATION_SERVICE →
      (ExecuteUriValidation env source context).value =
        Except.ok (some env.codes.BLOCKED_BY_REPUTATION_SERVICE) := by
    intro h
    rw [ExecuteUriValidation_value env source context _ h, env.codes.reputation_failed]
    rfl
  refine ⟨fun code h => ?_, hpass, hpolicy, hrep, ⟨fun ⟨code, h⟩ => ?_, fun h => ?_⟩, hd, hp, hr⟩
  · rcases EvaluateUri_value_cases env context source with ⟨e, he⟩ | he | he | he <;>
      rw [he] at h
    · cases h
    · exact Or.inl (Except.ok.inj h).symm
    · exact Or.inr (Or.inl (Except.ok.inj h).symm)
    · exact Or.inr (Or.inr (Except.ok.inj h).symm)
  · rcases EvaluateUri_value_cases env context source with ⟨e, he⟩ | he | he | he
    · rw [ExecuteUriValidation_raises env source context e he] at h
      cases h
    · rw [hpass he] at h
      cases h
    · exact Or.inl he
    · exact Or.inr he
  · rcases h with h | h
    · exact ⟨_, hpolicy h⟩
    · exact ⟨_, hrep h⟩

/-- C14: `IsUriBlockedBySmartScreen` returns, and it returns true if and only if the decision
of the reputation service for the URI is Block; for an Allow decision and for every other
decision value it returns false. -/
theorem smart_screen_blocks_iff_block_decision (env : Env) (uri : String) :
    (∃ blocked, (IsUriBlockedBySmartScreen env uri).value = Except.ok blocked ∧
      (blocked = true ↔ (env.ValidateUri uri).Decision = UriValidationDecision.Block)) ∧
    ((env.ValidateUri uri).Decision = UriValidationDecision.Allow →
      (IsUriBlockedBySmartScreen env uri).value = Except.ok false) ∧
    (∀ raw, (env.ValidateUri uri).Decision = UriValidationDecision.Other raw →
      (IsUriBlockedBySmartScreen env uri).value = Except.ok false) := by
  refine ⟨⟨_, IsUriBlockedBySmartScreen_value env uri, by simp⟩, fun h => ?_, fun raw h => ?_⟩
  · simp [IsUriBlockedBySmartScreen_value, h]
  · simp [IsUriBlockedBySmartScreen_value, h]

/-- C13, witness: the reputation block of the sample configuration terminates the command with
the reputation code, which differs from the policy code and from success. -/
theorem termination_iff_block_witness :
    (ExecuteUriValidation envReputationBlocks UriValidationSource.Configuration
      (sampleContext "https://example.com/config.yml" none)).value =
        Except.ok (some sampleCodes.BLOCKED_BY_REPUTATION_SERVICE) ∧
    (ExecuteUriValidation envReputationBlocks UriValidationSource.Configuration
      emptyContext).value = Except.ok none :=
  ⟨(termination_iff_block envReputationBlocks
      (sampleContext "https://example.com/config.yml" none)
      UriValidationSource.Configuration).2.2.2.1 (by rfl),
    (termination_iff_block envReputationBlocks emptyContext
      UriValidationSource.Configuration).2.1 (by rfl)⟩

/-- C14, witness: a decision value that is neither Allow nor Block does not block. -/
theorem smart_screen_blocks_iff_block_decision_witness :
    (IsUriBlockedBySmartScreen
      (sampleEnv false (S_OK, 3) PolicyState.NotConfigured none PolicyState.Enabled true
        ⟨UriValidationDecision.Other 7, ""⟩) "https://example.com/index").value =
      Except.ok false :=
  (smart_screen_blocks_iff_block_decision
    (sampleEnv false (S_OK, 3) PolicyState.NotConfigured none PolicyState.Enabled true
      ⟨UriValidationDecision.Other 7, ""⟩) "https://example.com/index").2.2 7 rfl

/-! ## The reputation query -/

theorem calls_GetUriZone_validateUri (env : Env) (uri : String) :
    List.countP (fun c => Event.isValidateUri (Event.call c))
      (calls (GetUriZone env uri).trace) = 0 :=
  (GetUriZone_calls_validateUri env uri).1

theorem isValidateUri_IsZoneBlockedByGroupPolicy (zone : SecurityZoneOptions) :
    Event.isValidateUri (Event.call (Call.IsZoneBlockedByGroupPolicy zone)) = false := rfl

theorem isValidateUri_IsSmartScreenRequired (zone : SecurityZoneOptions) (t : Bool) :
    Event.isValidateUri (Event.call (Call.IsSmartScreenRequired zone t)) = false := rfl

/-- What the shared shape of the evaluators writes to the reporter: the policy message exactly
with the policy block, the smart-screen message exactly with the reputation block, and nothing
otherwise. -/
theorem expectedEvaluation_reporter (env : Env) (uri : Option String) (trust : Option Bool) :
    ((expectedEvaluation env uri trust).reporter =
        [ResourceString.UriSecurityZoneBlockedByPolicy] ↔
      (expectedEvaluation env uri trust).value = Except.ok env.codes.BLOCKED_BY_POLICY) ∧
    ((expectedEvaluation env uri trust).reporter = [ResourceString.UriBlockedBySmartScreen] ↔
      (expectedEvaluation env uri trust).value =
        Except.ok env.codes.BLOCKED_BY_REPUTATION_SERVICE) ∧
    ((expectedEvaluation env uri trust).reporter = [] ∨
      (expectedEvaluation env uri trust).reporter =
        [ResourceString.UriSecurityZoneBlockedByPolicy] ∨
      (expectedEvaluation env uri trust).reporter = [ResourceString.UriBlockedBySmartScreen]) := by
  obtain ⟨hp, hr, hd⟩ := codes_ne env.codes
  have hp' : S_OK ≠ env.codes.BLOCKED_BY_POLICY := Ne.symm hp
  have hr' : S_OK ≠ env.codes.BLOCKED_BY_REPUTATION_SERVICE := Ne.symm hr
  have hd' : env.codes.BLOCKED_BY_REPUTATION_SERVICE ≠ env.codes.BLOCKED_BY_POLICY := Ne.symm hd
  cases uri with
  | none => simp [expectedEvaluation, hp', hr']
  | some u =>
    cases hz : (GetUriZone env u).value with
    | error e => simp [expectedEvaluation, hz]
    | ok r =>
      cases r with
      | error code => simp [expectedEvaluation, hz, hp', hr']
      | ok zone =>
        rcases Bool.eq_false_or_eq_true (zoneBlocked env zone) with hb | hb
        · simp [expectedEvaluation, hz, hb, hd]
        · cases trust with
          | none => simp [expectedEvaluation, hz, hb, hp', hr']
          | some t =>
            rcases Bool.eq_false_or_eq_true (smartScreenRequired env zone t) with hq | hq
            · by_cases hv : (env.ValidateUri u).Decision = UriValidationDecision.Block
              · simp [expectedEvaluation, hz, hb, hq, hv, hd']
              · simp [expectedEvaluation, hz, hb, hq, hv, hp', hr']
            · simp [expectedEvaluation, hz, hb, hq, hp', hr']

/-- C16: for each use case, a user-facing error message is written to the reporter if and only
if the outcome is a block, exactly one message is written, and its kind matches the outcome: the
security-zone-blocked-by-policy message for a policy block, the blocked-by-smart-screen message
for a reputation block; a Pass outcome writes nothing to the reporter. -/
theorem reporter_message_iff_block (env : Env) (context : Context)
    (source : UriValidationSource) (hsource : source.isUseCase = true) :
    (reporterMessages (EvaluateUri env context source).trace =
        [ResourceString.UriSecurityZoneBlockedByPolicy] ↔
      (EvaluateUri env context source).value = Except.ok env.codes.BLOCKED_BY_POLICY) ∧
    (reporterMessages (EvaluateUri env context source).trace =
        [ResourceString.UriBlockedBySmartScreen] ↔
      (EvaluateUri env context source).value =
        Except.ok env.codes.BLOCKED_BY_REPUTATION_SERVICE) ∧
    (reporterMessages (EvaluateUri env context source).trace ≠ [] ↔
      ((EvaluateUri env context source).value = Except.ok env.codes.BLOCKED_BY_POLICY ∨
        (EvaluateUri env context source).value =
          Except.ok env.codes.BLOCKED_BY_REPUTATION_SERVICE)) ∧
    (reporterMessages (EvaluateUri env context source).trace).length ≤ 1 ∧
    ((EvaluateUri env context source).value = Except.ok S_OK →
      reporterMessages (EvaluateUri env context source).trace = []) := by
  have hobs := EvaluateUri_observed env context source hsource
  have hv : (EvaluateUri env context source).value =
      (expectedEvaluation env (useCaseUri context source) (originTrust context source)).value :=
    congrArg Observation.value hobs
  have hm : reporterMessages (EvaluateUri env context source).trace =
      (expectedEvaluation env (useCaseUri context source)
        (originTrust context source)).reporter :=
    congrArg Observation.reporter hobs
  obtain ⟨h1, h2, h3⟩ :=
    expectedEvaluation_reporter env (useCaseUri context source) (originTrust context source)
  obtain ⟨hp, hr, hd⟩ := codes_ne env.codes
  rw [hm, hv]
  refine ⟨h1, h2, ?_, ?_, fun hpass => ?_⟩
  · rw [← h1, ← h2]
    rcases h3 with h | h | h <;> simp [h]
  · rcases h3 with h | h | h <;> simp [h]
  · rcases h3 with h | h | h
    · exact h
    · rw [h1.mp h] at hpass
      exact absurd (Except.ok.inj hpass) hp
    · rw [h2.mp h] at hpass
      exact absurd (Except.ok.inj hpass) hr

/-- C16, witness: the source registration blocked by policy writes the policy message, and
nothing else, to the reporter. -/
theorem reporter_message_iff_block_witness :
    UriValidationSource.SourceAdd.isUseCase = true ∧
    (EvaluateUri envInternetBlockedByPolicy (sampleContext "https://example.com/index" none)
      UriValidationSource.SourceAdd).value = Except.ok sampleCodes.BLOCKED_BY_POLICY ∧
    reporterMessages (EvaluateUri envInternetBlockedByPolicy
      (sampleContext "https://example.com/index" none) UriValidationSource.SourceAdd).trace =
        [ResourceString.UriSecurityZoneBlockedByPolicy] :=
  ⟨rfl, by rfl,
    (reporter_message_iff_block envInternetBlockedByPolicy
      (sampleContext "https://example.com/index" none) UriValidationSource.SourceAdd rfl).1.mpr
      (by rfl)⟩

/-- C17, counterexample: without a ConfigurationFile argument the one note of the skipped
validation is logged at level Warning, not Info. -/
theorem absent_uri_note_is_not_informational :
    emptyContext.Args_ConfigurationFile = none ∧
    (EvaluateConfigurationUri envAllowListSample emptyContext).trace =
      [Event.log LogLevel.Warning
        [LogPart.text "Configuration URI is not available. Skipping validation."]] ∧
    (logLines (EvaluateConfigurationUri envAllowListSample emptyContext).trace).map Prod.fst =
      [LogLevel.Warning] ∧
    (logLines (EvaluateConfigurationUri envAllowListSample emptyContext).trace).map Prod.fst ≠
      [LogLevel.Info] := by
  refine ⟨rfl, by rfl, by rfl, ?_⟩
  have h : (logLines (EvaluateConfigurationUri envAllowListSample emptyContext).trace).map
      Prod.fst = [LogLevel.Warning] := by rfl
  rw [h]
  decide

/-- C17, amended: for each of the three use cases, when the use-case-specific URI is absent,
exactly one diagnostic note is logged for the skipped validation, and it has warning level. -/
theorem absent_uri_note_is_a_warning (env : Env) (context : Context) :
    (context.Args_ConfigurationFile = none →
      logLines (EvaluateConfigurationUri env context).trace =
        [(LogLevel.Warning,
          [LogPart.text "Configuration URI is not available. Skipping validation."])]) ∧
    (context.Data_Installer_Url = none →
      logLines (EvaluateDownloadUri env context).trace =
        [(LogLevel.Warning,
          [LogPart.text "Installer URL is not available. Skipping validation."])]) ∧
    (context.Data_Source_Arg = none →
      logLines (EvaluateSourceAddUri env context).trace =
        [(LogLevel.Warning,
          [LogPart.text "Source URL is not available. Skipping validation."])]) := by
  refine ⟨fun h => ?_, fun h => ?_, fun h => ?_⟩
  · simp [EvaluateConfigurationUri, GetConfigurationUri, h, AICLI_LOG, logLines]
  · simp [EvaluateDownloadUri, GetInstallerUrl, h, AICLI_LOG, logLines]
  · simp [EvaluateSourceAddUri, GetSourceAddUrl, h, AICLI_LOG, logLines]

/-- C17, amended, witness: a context without any URI. -/
theorem absent_uri_note_is_a_warning_witness :
    emptyContext.Data_Installer_Url = none ∧
    logLines (EvaluateDownloadUri envAllowListSample emptyContext).trace =
      [(LogLevel.Warning,
        [LogPart.text "Installer URL is not available. Skipping validation."])] :=
  ⟨rfl, (absent_uri_note_is_a_warning envAllowListSample emptyContext).2.1 rfl⟩

/-! ## The zones handed to the gates -/

theorem recognized_of_le (v : Nat) (h : v ≤ 4) :
    (SecurityZoneOptions.mk (v : Int)).recognized = true := by
  interval_cases v <;> decide

/-- Without the test hook a resolved zone is one of the five tiers. -/
theorem GetUriZone_recognized (env : Env) (uri : String) (zone : SecurityZoneOptions)
    (hhook : env.testHooks = false ∨ regex_search_zone uri.toList = none)
    (hzone : (GetUriZone env uri).value = Except.ok (Except.ok zone)) :
    zone.recognized = true := by
  rw [GetUriZone_mapped env uri hhook] at hzone
  by_cases h1 : FAILED (env.MapUrlToZone uri).1 = true
  · simp [h1] at hzone
  · by_cases h2 : 4 < (env.MapUrlToZone uri).2
    · simp [h1, h2] at hzone
      subst hzone
      decide
    · simp [h1, h2] at hzone
      subst hzone
      exact recognized_of_le _ (Nat.le_of_not_lt h2)

theorem GetUriZone_calls_zoneRecognized (env : Env) (uri : String) :
    (calls (GetUriZone env uri).trace).all Call.zoneRecognized = true := by
  rw [GetUriZone_calls]
  split <;> rfl

theorem expectedEvaluation_zoneRecognized (env : Env) (uri : Option String)
    (trust : Option Bool)
    (h : ∀ u zone, uri = some u → (GetUriZone env u).value = Except.ok (Except.ok zone) →
      zone.recognized = true) :
    (expectedEvaluation env uri trust).calls.all Call.zoneRecognized = true := by
  cases uri with
  | none => simp [expectedEvaluation]
  | some u =>
    have hzc := GetUriZone_calls_zoneRecognized env u
    cases hz : (GetUriZone env u).value with
    | error e => simpa [expectedEvaluation, hz] using hzc
    | ok r =>
      cases r with
      | error code => simpa [expectedEvaluation, hz] using hzc
      | ok zone =>
        have hrec := h u zone rfl hz
        simp only [expectedEvaluation, hz]
        repeat' split
        all_goals simp only [List.all_append, hzc, Bool.true_and]
        all_goals simp [Call.zoneRecognized, hrec]

/-- C18, counterexample: with the test hooks compiled in, a configuration URI that carries the
marker `/zone7/` resolves to the zone of ordinal 7, `GetUriZone` succeeds with it, and the
evaluator hands that zone, which is none of the five tiers, to `IsZoneBlockedByGroupPolicy` and
to `IsSmartScreenRequired`. -/
theorem zone_marker_reaches_gates_unclamped :
    envHooksRawSeven.testHooks = true ∧
    (GetUriZone envHooksRawSeven "https://example.com/zone7/config.yml").value =
      Except.ok (Except.ok (SecurityZoneOptions.mk 7)) ∧
    (SecurityZoneOptions.mk 7).recognized = false ∧
    UntrustedSites.raw < (SecurityZoneOptions.mk 7).raw ∧
    ToString (SecurityZoneOptions.mk 7) = "Unknown" ∧
    calls (EvaluateConfigurationUri envHooksRawSeven
      (sampleContext "https://example.com/zone7/config.yml" none)).trace =
        [Call.GetUriZone "https://example.com/zone7/config.yml",
          Call.IsZoneBlockedByGroupPolicy (SecurityZoneOptions.mk 7),
          Call.IsSmartScreenRequired (SecurityZoneOptions.mk 7) false] ∧
    gateZonesRecognized (EvaluateConfigurationUri envHooksRawSeven
      (sampleContext "https://example.com/zone7/config.yml" none)).trace = false := by
  refine ⟨rfl, by rfl, by decide, by decide, by decide, by rfl, by rfl⟩

/-- C19: on a context that holds the same optional URI for both, `EvaluateConfigurationUri` and
`EvaluateSourceAddUri` end in the same outcome, make the same calls in the same order (zone
resolution, policy gate, reputation-requirement decision, reputation service) and write the same
messages to the reporter; and both agree with `EvaluateDownloadUri` on that URI when the source
trust is available and untrusted. -/
theorem configuration_and_source_add_agree (env : Env) (context : Context)
    (hsame : context.Args_ConfigurationFile = context.Data_Source_Arg) :
    ((EvaluateConfigurationUri env context).value = (EvaluateSourceAddUri env context).value ∧
      calls (EvaluateConfigurationUri env context).trace =
        calls (EvaluateSourceAddUri env context).trace ∧
      reporterMessages (EvaluateConfigurationUri env context).trace =
        reporterMessages (EvaluateSourceAddUri env context).trace) ∧
    (∀ trustLevel, context.Data_Installer_Url = context.Args_ConfigurationFile →
      context.Data_PackageVersion_TrustLevel = some trustLevel →
      WI_IsFlagSet trustLevel SourceTrustLevel_Trusted = false →
      (EvaluateDownloadUri env context).value = (EvaluateConfigurationUri env context).value ∧
      calls (EvaluateDownloadUri env context).trace =
        calls (EvaluateConfigurationUri env context).trace ∧
      reporterMessages (EvaluateDownloadUri env context).trace =
        reporterMessages (EvaluateConfigurationUri env context).trace) := by
  have hc := EvaluateConfigurationUri_observed env context
  have hs := EvaluateSourceAddUri_observed env context
  have hd := EvaluateDownloadUri_observed env context
  refine ⟨?_, fun trustLevel hurl htrust hflag => ?_⟩
  · rw [← hsame] at hs
    have h : observe (EvaluateConfigurationUri env context) =
        observe (EvaluateSourceAddUri env context) := hc.trans hs.symm
    exact ⟨congrArg Observation.value h, congrArg Observation.calls h,
      congrArg Observation.reporter h⟩
  · rw [hurl, htrust, Option.map, hflag] at hd
    have h : observe (EvaluateDownloadUri env context) =
        observe (EvaluateConfigurationUri env context) := hd.trans hc.symm
    exact ⟨congrArg Observation.value h, congrArg Observation.calls h,
      congrArg Observation.reporter h⟩

/-- C19, witness: one URL in zone UntrustedSites for all three use cases and a package source
without the Trusted flag; all three evaluations end in the reputation block. -/
theorem configuration_and_source_add_agree_witness :
    (EvaluateConfigurationUri envReputationBlocks
      (sampleContext "https://example.com/index" (some 0))).value =
        Except.ok sampleCodes.BLOCKED_BY_REPUTATION_SERVICE ∧
    (EvaluateSourceAddUri envReputationBlocks
      (sampleContext "https://example.com/index" (some 0))).value =
        (EvaluateConfigurationUri envReputationBlocks
          (sampleContext "https://example.com/index" (some 0))).value ∧
    (EvaluateDownloadUri envReputationBlocks
      (sampleContext "https://example.com/index" (some 0))).value =
        (EvaluateConfigurationUri envReputationBlocks
          (sampleContext "https://example.com/index" (some 0))).value :=
  ⟨by rfl,
    ((configuration_and_source_add_agree envReputationBlocks
      (sampleContext "https://example.com/index" (some 0)) rfl).1.1).symm,
    ((configuration_and_source_add_agree envReputationBlocks
      (sampleContext "https://example.com/index" (some 0)) rfl).2 0 rfl rfl (by decide)).1⟩

/-! ## Trusted zones -/

theorem smartScreenRequired_trusted_zone (env : Env) (zone : SecurityZoneOptions) (t : Bool)
    (hzone : zone = LocalMachine ∨ zone = Intranet ∨ zone = TrustedSites) :
    smartScreenRequired env zone t = false := by
  rcases hzone with h | h | h <;> subst h <;>
    simp [smartScreenRequired, LocalMachine, Intranet, TrustedSites, Internet, UntrustedSites]

theorem expectedEvaluation_trusted_zone (env : Env) (uri : String) (trust : Option Bool)
    (zone : SecurityZoneOptions)
    (hz : (GetUriZone env uri).value = Except.ok (Except.ok zone))
    (hzone : zone = LocalMachine ∨ zone = Intranet ∨ zone = TrustedSites) :
    (expectedEvaluation env (some uri) trust).value =
      Except.ok (if zoneBlocked env zone then env.codes.BLOCKED_BY_POLICY else S_OK) ∧
    List.countP (fun c => Event.isValidateUri (Event.call c))
      (expectedEvaluation env (some uri) trust).calls = 0 := by
  rcases Bool.eq_false_or_eq_true (zoneBlocked env zone) with hb | hb
  · simp [expectedEvaluation, hz, hb, calls_GetUriZone_validateUri,
      isValidateUri_IsZoneBlockedByGroupPolicy]
  · cases trust with
    | none =>
      simp [expectedEvaluation, hz, hb, calls_GetUriZone_validateUri,
        isValidateUri_IsZoneBlockedByGroupPolicy]
    | some t =>
      simp [expectedEvaluation, hz, hb, smartScreenRequired_trusted_zone env zone t hzone,
        calls_GetUriZone_validateUri, isValidateUri_IsZoneBlockedByGroupPolicy,
        isValidateUri_IsSmartScreenRequired]

/-- C20: for every use case and every URI whose zone resolves to LocalMachine, Intranet or
TrustedSites, the outcome depends only on the allowed-security-zones policy decision for that
zone: two runs of the program that agree on the URI, the zone and the allowed-zones policy store
end in the same outcome, which is Pass or the policy block and never the reputation block,
whatever their smart-screen policy states, admin settings, source trust (value or availability)
and reputation verdicts are; the reputation service is not queried. -/
theorem trusted_zone_outcome_independent_of_reputation (env1 env2 : Env)
    (context1 context2 : Context) (source : UriValidationSource) (uri : String)
    (zone : SecurityZoneOptions)
    (hsource : source.isUseCase = true)
    (huri1 : useCaseUri context1 source = some uri)
    (huri2 : useCaseUri context2 source = some uri)
    (hzone1 : (GetUriZone env1 uri).value = Except.ok (Except.ok zone))
    (hzone2 : (GetUriZone env2 uri).value = Except.ok (Except.ok zone))
    (hzone : zone = LocalMachine ∨ zone = Intranet ∨ zone = TrustedSites)
    (hstate : env1.AllowedSecurityZones_State = env2.AllowedSecurityZones_State)
    (hvalue : env1.AllowedSecurityZones_Value = env2.AllowedSecurityZones_Value)
    (hcodes : env1.codes = env2.codes) :
    (EvaluateUri env1 context1 source).value = (EvaluateUri env2 context2 source).value ∧
    ((EvaluateUri env1 context1 source).value = Except.ok S_OK ∨
      (EvaluateUri env1 context1 source).value = Except.ok env1.codes.BLOCKED_BY_POLICY) ∧
    (EvaluateUri env1 context1 source).value ≠
      Except.ok env1.codes.BLOCKED_BY_REPUTATION_SERVICE ∧
    ((EvaluateUri env1 context1 source).value = Except.ok env1.codes.BLOCKED_BY_POLICY ↔
      (IsZoneBlockedByGroupPolicy env1 zone).value = Except.ok true) ∧
    validateUriCalls (EvaluateUri env1 context1 source).trace = 0 := by
  obtain ⟨hp, hr, hd⟩ := codes_ne env1.codes
  have hobs1 := EvaluateUri_observed env1 context1 source hsource
  have hobs2 := EvaluateUri_observed env2 context2 source hsource
  rw [huri1] at hobs1
  rw [huri2] at hobs2
  obtain ⟨he1, hq1⟩ :=
    expectedEvaluation_trusted_zone env1 uri (originTrust context1 source) zone hzone1 hzone
  obtain ⟨he2, _⟩ :=
    expectedEvaluation_trusted_zone env2 uri (originTrust context2 source) zone hzone2 hzone
  have hv1 : (EvaluateUri env1 context1 source).value =
      Except.ok (if zoneBlocked env1 zone then env1.codes.BLOCKED_BY_POLICY else S_OK) :=
    (congrArg Observation.value hobs1).trans he1
  have hv2 : (EvaluateUri env2 context2 source).value =
      Except.ok (if zoneBlocked env2 zone then env2.codes.BLOCKED_BY_POLICY else S_OK) :=
    (congrArg Observation.value hobs2).trans he2
  have hb : zoneBlocked env2 zone = zoneBlocked env1 zone := by
    simp [zoneBlocked, hstate, hvalue]
  have hc1 : calls (EvaluateUri env1 context1 source).trace =
      (expectedEvaluation env1 (some uri) (originTrust context1 source)).calls :=
    congrArg Observation.calls hobs1
  refine ⟨?_, ?_, ?_, ?_, ?_⟩
  · rw [hv1, hv2, hb, hcodes]
  · rw [hv1]
    cases zoneBlocked env1 zone <;> simp
  · rw [hv1]
    cases zoneBlocked env1 zone
    · simpa using Ne.symm hr
    · simpa using hd
  · rw [hv1, IsZoneBlockedByGroupPolicy_value]
    cases zoneBlocked env1 zone
    · simpa using Ne.symm hp
    · simp
  · rw [validateUriCalls_eq_calls, hc1]
    exact hq1

/-- C20, witness: a download from zone Intranet, once under the smart-screen policy Enabled
with an untrusted source and a Block verdict, once under the policy Disabled without a package
version and with an Allow verdict; the allowed-zones policy store is the same and both runs
pass. -/
theorem trusted_zone_outcome_independent_of_reputation_witness :
    (GetUriZone envIntranetStrict "https://example.com/setup.exe").value =
      Except.ok (Except.ok Intranet) ∧
    (GetUriZone envIntranetLax "https://example.com/setup.exe").value =
      Except.ok (Except.ok Intranet) ∧
    envIntranetStrict.SmartScreenCheck_State ≠ envIntranetLax.SmartScreenCheck_State ∧
    (EvaluateUri envIntranetStrict (sampleContext "https://example.com/setup.exe" (some 0))
      UriValidationSource.Package).value =
        (EvaluateUri envIntranetLax (sampleContext "https://example.com/setup.exe" none)
          UriValidationSource.Package).value ∧
    (EvaluateUri envIntranetStrict (sampleContext "https://example.com/setup.exe" (some 0))
      UriValidationSource.Package).value = Except.ok S_OK :=
  ⟨by rfl, by rfl, by decide,
    (trusted_zone_outcome_independent_of_reputation envIntranetStrict envIntranetLax
      (sampleContext "https://example.com/setup.exe" (some 0))
      (sampleContext "https://example.com/setup.exe" none) UriValidationSource.Package
      "https://example.com/setup.exe" Intranet rfl rfl rfl (by rfl) (by rfl)
      (Or.inr (Or.inl rfl)) rfl rfl rfl).1,
    by rfl⟩

/-! ## The test hook, case by case -/

theorem recognized_iff (zone : SecurityZoneOptions) :
    zone.recognized = true ↔ 0 ≤ zone.raw ∧ zone.raw ≤ 4 := by
  obtain ⟨raw⟩ := zone
  simp only [recognized, LocalMachine, Intranet, TrustedSites, Internet, UntrustedSites,
    Bool.or_eq_true, decide_eq_true_eq, SecurityZoneOptions.mk.injEq]
  omega

theorem ofUnsigned_above_untrusted (v : Nat) (h1 : 4 < v) (h2 : v ≤ ULONG_MAX) :
    (ofUnsigned v).recognized = false := by
  have hmod : v % 4294967296 = v := Nat.mod_eq_of_lt (by unfold ULONG_MAX at h2; omega)
  rw [Bool.eq_false_iff]
  intro h
  rw [recognized_iff] at h
  unfold ofUnsigned at h
  rw [hmod] at h
  unfold ULONG_MAX at h2
  split at h <;> simp at h <;> omega

/-- A resolved zone is one of the five tiers unless the test hook set it above
UntrustedSites. -/
theorem GetUriZone_recognized_unless_hook (env : Env) (uri : String)
    (zone : SecurityZoneOptions)
    (hhook : hookSetsZoneAboveUntrusted env uri = false)
    (hzone : (GetUriZone env uri).value = Except.ok (Except.ok zone)) :
    zone.recognized = true := by
  cases hh : env.testHooks
  · exact GetUriZone_recognized env uri zone (Or.inl hh) hzone
  · cases hm : regex_search_zone uri.toList with
    | none => exact GetUriZone_recognized env uri zone (Or.inr hm) hzone
    | some number =>
      rw [GetUriZone_marker env uri number hh hm] at hzone
      by_cases hfit : decimalValue number ≤ ULONG_MAX
      · simp only [hfit, if_true, Except.ok.injEq] at hzone
        subst hzone
        have hsmall : decimalValue number ≤ 4 := by
          unfold hookSetsZoneAboveUntrusted at hhook
          rw [hh, hm, toDWORD_UntrustedSites] at hhook
          simp [hfit] at hhook
          exact hhook
        rw [ofUnsigned_small _ hsmall]
        exact recognized_of_le _ hsmall
      · simp [hfit] at hzone

/-- When the test hook sets a zone above UntrustedSites, resolution succeeds with a zone that
is none of the five tiers. -/
theorem GetUriZone_unrecognized_of_hook (env : Env) (uri : String)
    (hhook : hookSetsZoneAboveUntrusted env uri = true) :
    ∃ zone, (GetUriZone env uri).value = Except.ok (Except.ok zone) ∧
      zone.recognized = false := by
  unfold hookSetsZoneAboveUntrusted at hhook
  cases hh : env.testHooks
  · rw [hh] at hhook
    simp at hhook
  · cases hm : regex_search_zone uri.toList with
    | none =>
      rw [hh, hm] at hhook
      simp at hhook
    | some number =>
      rw [hh, hm, toDWORD_UntrustedSites] at hhook
      simp at hhook
      refine ⟨ofUnsigned (decimalValue number), ?_, ofUnsigned_above_untrusted _ hhook.1 hhook.2⟩
      rw [GetUriZone_marker env uri number hh hm]
      simp [hhook.2]

theorem expectedEvaluation_zoneUnrecognized (env : Env) (uri : String) (trust : Option Bool)
    (zone : SecurityZoneOptions)
    (hz : (GetUriZone env uri).value = Except.ok (Except.ok zone))
    (hrec : zone.recognized = false) :
    (expectedEvaluation env (some uri) trust).calls.all Call.zoneRecognized = false := by
  simp only [expectedEvaluation, hz]
  repeat' split
  all_goals simp [Call.zoneRecognized, hrec]

/-- C18, amended: for every use case and every URI, whenever the evaluator calls
`IsZoneBlockedByGroupPolicy` or `IsSmartScreenRequired`, the zone it passes is one of the five
recognized zones, unless the test hook sets the zone from a `/zone<digits>/` marker whose number
lies above the ordinal of UntrustedSites (and fits an `unsigned long`); exactly then a zone that
is none of the five reaches the gates. For every other URI, markers `/zone0/` to `/zone4/`
included, a successfully resolved zone from `GetUriZone` is one of LocalMachine, Intranet,
TrustedSites, Internet and UntrustedSites, so its ordinal is at most that of UntrustedSites. -/
theorem gate_zones_recognized_unless_marker_above_untrusted (env : Env) (context : Context)
    (source : UriValidationSource) (hsource : source.isUseCase = true) :
    (gateZonesRecognized (EvaluateUri env context source).trace = true ↔
      ∀ uri, useCaseUri context source = some uri →
        hookSetsZoneAboveUntrusted env uri = false) ∧
    (∀ uri zone, hookSetsZoneAboveUntrusted env uri = false →
      (GetUriZone env uri).value = Except.ok (Except.ok zone) →
      zone.recognized = true ∧ zone.raw ≤ UntrustedSites.raw) ∧
    ((∀ uri, useCaseUri context source = some uri →
        hookSetsZoneAboveUntrusted env uri = false) →
      (∀ zone, Call.IsZoneBlockedByGroupPolicy zone ∈
          calls (EvaluateUri env context source).trace → zone.recognized = true) ∧
      (∀ zone trust, Call.IsSmartScreenRequired zone trust ∈
          calls (EvaluateUri env context source).trace → zone.recognized = true)) := by
  have hc : calls (EvaluateUri env context source).trace =
      (expectedEvaluation env (useCaseUri context source) (originTrust context source)).calls :=
    congrArg Observation.calls (EvaluateUri_observed env context source hsource)
  have hiff : gateZonesRecognized (EvaluateUri env context source).trace = true ↔
      ∀ uri, useCaseUri context source = some uri →
        hookSetsZoneAboveUntrusted env uri = false := by
    unfold gateZonesRecognized
    rw [hc]
    constructor
    · intro hall uri huri
      rcases Bool.eq_false_or_eq_true (hookSetsZoneAboveUntrusted env uri) with hh | hh
      · obtain ⟨zone, hz, hrec⟩ := GetUriZone_unrecognized_of_hook env uri hh
        rw [huri, expectedEvaluation_zoneUnrecognized env uri _ zone hz hrec] at hall
        cases hall
      · exact hh
    · intro h
      apply expectedEvaluation_zoneRecognized
      intro u zone hu hz
      exact GetUriZone_recognized_unless_hook env u zone (h u hu) hz
  refine ⟨hiff, fun uri zone hhook hz => ?_, fun h => ?_⟩
  · have hrec := GetUriZone_recognized_unless_hook env uri zone hhook hz
    exact ⟨hrec, ((recognized_iff zone).mp hrec).2⟩
  · have hall := hiff.mpr h
    unfold gateZonesRecognized at hall
    have hmem := List.all_eq_true.mp hall
    exact ⟨fun zone hz => hmem _ hz, fun zone trust hz => hmem _ hz⟩

/-- C18, amended, witness: with the test hooks compiled in, a configuration URI with the marker
`/zone3/` reaches both gates as zone Internet. -/
theorem gate_zones_recognized_unless_marker_above_untrusted_witness :
    hookFires envHooksRawSeven "https://example.com/zone3/config.yml" = true ∧
    hookSetsZoneAboveUntrusted envHooksRawSeven "https://example.com/zone3/config.yml" =
      false ∧
    gateZonesRecognized (EvaluateUri envHooksRawSeven
      (sampleContext "https://example.com/zone3/config.yml" none)
      UriValidationSource.Configuration).trace = true ∧
    calls (EvaluateUri envHooksRawSeven
      (sampleContext "https://example.com/zone3/config.yml" none)
      UriValidationSource.Configuration).trace =
        [Call.GetUriZone "https://example.com/zone3/config.yml",
          Call.IsZoneBlockedByGroupPolicy Internet,
          Call.IsSmartScreenRequired Internet false,
          Call.ValidateUri "https://example.com/zone3/config.yml"] :=
  ⟨by rfl, by rfl,
    (gate_zones_recognized_unless_marker_above_untrusted envHooksRawSeven
      (sampleContext "https://example.com/zone3/config.yml" none)
      UriValidationSource.Configuration rfl).1.mpr
      (fun uri huri => by cases huri; rfl),
    by rfl⟩

end UriValidationFlow
